import Mathlib

/-!
# Axiom Core — shallow embedding and verification

This file embeds the tick-processing state machine and binary I/O surface of
the Axiom Core (`src/engine/src/ax_core.cpp`, `src/engine/include/ax_abi.h`)
into Lean 4 and proves/refutes the frozen claims about it.

Modelling conventions:
* Machine integers (`uint32_t`, `uint64_t`, `int32_t`) are `Nat`/`Int`; where
  the C code performs wrapping unsigned arithmetic (e.g. the `uint32_t`
  bounds arithmetic in `ax_load_save_bytes`), the model writes the wrap
  explicitly as `% 2^32`.
* `float` payloads and entity coordinates are modelled as `ℚ`.  IEEE-754
  bit patterns and rounding are not modelled; the 4-byte wire encoding of a
  float value is a stand-in injection (`f32enc`) and its decoding
  (`f32dec`) a stand-in function.  No claim in this development depends on
  the numeric value of any float byte or of any float arithmetic result;
  `sqrtf` is approximated by `Rat.sqrt`.
* The C `union` in `ax_action_v1` is modelled as a product: every code path
  of the core reads only the union member matching the action's `type`, so
  giving each member its own field is observationally equivalent.
* Buffers are `List Nat`, each entry one byte; reads mask with `% 256`.
* The process-wide `g_last_error` buffer is modelled by having every API
  function return an `Option String`: `some msg` means the call overwrote
  the buffer with `msg` (`some ""` = cleared on success), `none` means the
  call returned without touching the buffer.
-/

namespace AxCore

/-! ## Little-endian byte encoding helpers -/

/-- One byte of a buffer, with the C `uint8_t` masking made explicit. -/
def byteD (b : List Nat) (i : Nat) : Nat := b.getD i 0 % 256

/-- Little-endian encoding of a 16-bit value. -/
def le16 (n : Nat) : List Nat := [n % 256, n / 2 ^ 8 % 256]

/-- Little-endian encoding of a 32-bit value. -/
def le32 (n : Nat) : List Nat :=
  [n % 256, n / 2 ^ 8 % 256, n / 2 ^ 16 % 256, n / 2 ^ 24 % 256]

/-- Little-endian encoding of a 64-bit value. -/
def le64 (n : Nat) : List Nat :=
  [n % 256, n / 2 ^ 8 % 256, n / 2 ^ 16 % 256, n / 2 ^ 24 % 256,
   n / 2 ^ 32 % 256, n / 2 ^ 40 % 256, n / 2 ^ 48 % 256, n / 2 ^ 56 % 256]

/-- Read a little-endian 16-bit value from the head of a buffer. -/
def rd16 (b : List Nat) : Nat := byteD b 0 + 2 ^ 8 * byteD b 1

/-- Read a little-endian 32-bit value from the head of a buffer. -/
def rd32 (b : List Nat) : Nat :=
  byteD b 0 + 2 ^ 8 * byteD b 1 + 2 ^ 16 * byteD b 2 + 2 ^ 24 * byteD b 3

/-- Read a little-endian 64-bit value from the head of a buffer. -/
def rd64 (b : List Nat) : Nat :=
  byteD b 0 + 2 ^ 8 * byteD b 1 + 2 ^ 16 * byteD b 2 + 2 ^ 24 * byteD b 3 +
  2 ^ 32 * byteD b 4 + 2 ^ 40 * byteD b 5 + 2 ^ 48 * byteD b 6 + 2 ^ 56 * byteD b 7

/-- Little-endian encoding of an `int32_t` (two's complement). -/
def les32 (v : Int) : List Nat := le32 (v % 2 ^ 32).toNat

/-- Read an `int32_t` (two's complement) from the head of a buffer. -/
def rds32 (b : List Nat) : Int :=
  let n := rd32 b
  if n < 2 ^ 31 then (n : Int) else (n : Int) - 2 ^ 32

/-- Stand-in 4-byte wire encoding of a float value (modelled as `ℚ`).
The real core writes the IEEE-754 bit pattern; no claim depends on the
byte values chosen here. -/
def f32enc (q : ℚ) : List Nat :=
  [q.num.natAbs % 256, q.num.natAbs / 2 ^ 8 % 256,
   q.den % 256, if q.num < 0 then 1 else 0]

/-- Stand-in decoding of a 4-byte float field (see `f32enc`). -/
def f32dec (b : List Nat) : ℚ := (rd32 b : ℚ)

/-! ## Constants from `ax_abi.h` -/

def AX_ENT_FLAG_PLAYER : Nat := 1
def AX_ENT_FLAG_TARGET : Nat := 2
def AX_ENT_FLAG_DEAD : Nat := 4

def AX_ACT_MOVE_INTENT : Nat := 1
def AX_ACT_LOOK_INTENT : Nat := 2
def AX_ACT_FIRE_ONCE : Nat := 3
def AX_ACT_RELOAD : Nat := 4
def AX_ACT_SPRINT_HELD : Nat := 5
def AX_ACT_CROUCH_TOGGLE : Nat := 6

def AX_EVT_DAMAGE_DEALT : Nat := 1
def AX_EVT_RELOAD_STARTED : Nat := 2
def AX_EVT_RELOAD_DONE : Nat := 3
def AX_EVT_TARGET_DESTROY : Nat := 4
def AX_EVT_FIRE_BLOCKED : Nat := 5

def AX_FIRE_BLOCKED_RELOADING : Int := 1
def AX_FIRE_BLOCKED_EMPTY_MAG : Int := 2

def AX_WPN_FLAG_RELOADING : Nat := 1

def AX_ABI_MAJOR : Nat := 0
def AX_ABI_MINOR : Nat := 1

/-- `'AXSV'` save-blob magic. -/
def AX_SAVE_MAGIC : Nat := 0x56535841

/-- `sizeof(ax_create_params_v1)` on the reference LP64 platform. -/
def sizeof_create_params : Nat := 24
/-- `sizeof(ax_content_load_params_v1)` on the reference LP64 platform. -/
def sizeof_content_load_params : Nat := 16
/-- `sizeof(ax_action_batch_v1)` on the reference LP64 platform. -/
def sizeof_action_batch : Nat := 24
/-- `sizeof(ax_save_header_v1)` (packed). -/
def sizeof_save_header : Nat := 24
/-- `sizeof(ax_save_a1_world_v1)` (packed). -/
def sizeof_save_world : Nat := 64
/-- `sizeof(ax_save_target_v1)` (packed). -/
def sizeof_save_target : Nat := 40

/-! ## Result codes and lifecycle -/

/-- `ax_result`. -/
inductive AxResult where
  | ok
  | invalidArg
  | badState
  | unsupported
  | bufferTooSmall
  | parseFailed
  | ioErr
  | internal
deriving DecidableEq, Repr

/-- `ax_lifecycle`. -/
inductive AxLifecycle where
  | created
  | contentLoaded
  | running
deriving DecidableEq, Repr

/-- Numeric rank used by the C `<` comparisons on the lifecycle enum. -/
def AxLifecycle.rank : AxLifecycle → Nat
  | .created => 0
  | .contentLoaded => 1
  | .running => 2

/-! ## Truth state -/

/-- `ax_entity_internal`. -/
structure Entity where
  id : Nat
  archetype_id : Nat
  px : ℚ
  py : ℚ
  pz : ℚ
  rx : ℚ
  ry : ℚ
  rz : ℚ
  rw : ℚ
  hp : Int
  state_flags : Nat
deriving DecidableEq, Repr

/-- `ax_weapon_internal`. -/
structure Weapon where
  player_id : Nat
  weapon_slot : Nat
  ammo_in_mag : Int
  ammo_reserve : Int
  reloading : Bool
  reload_ticks_remaining : Nat
deriving DecidableEq, Repr

/-- A float payload field of `ax_action_v1`: either a finite value or a
non-finite one (NaN/Infinity), which is all `std::isfinite` distinguishes. -/
inductive F32 where
  | finite (q : ℚ)
  | notFinite
deriving DecidableEq, Repr

/-- `std::isfinite` on a payload field. -/
def F32.isFinite : F32 → Bool
  | .finite _ => true
  | .notFinite => false

/-- Numeric value of a payload field; non-finite values are never read
by the core on any reachable path (validation rejects them). -/
def F32.val : F32 → ℚ
  | .finite q => q
  | .notFinite => 0

/-- `ax_action_v1`.  The C `union` is modelled as a product: every core
code path reads only the member matching `type`. -/
structure AxAction where
  tick : Nat
  actor_id : Nat
  type : Nat
  move_x : F32 := .finite 0
  move_y : F32 := .finite 0
  look_yaw : F32 := .finite 0
  look_pitch : F32 := .finite 0
  weapon_slot : Nat := 0
deriving DecidableEq, Repr

/-- `ax_snapshot_event_v1`. -/
structure AxEvent where
  type : Nat
  a : Nat
  b : Nat
  value : Int
deriving DecidableEq, Repr

/-- `ax_core` (the truth store). -/
structure CoreState where
  lifecycle : AxLifecycle
  tick : Nat
  entities : List Entity
  weapon : Weapon
  action_queue : List AxAction
  events : List AxEvent
deriving DecidableEq, Repr

/-- Weapon state produced by `memset(&core->weapon, 0, ...)`. -/
def initWeapon : Weapon :=
  { player_id := 0, weapon_slot := 0, ammo_in_mag := 0, ammo_reserve := 0
    reloading := false, reload_ticks_remaining := 0 }

/-- Core state immediately after a successful `ax_create`. -/
def initCore : CoreState :=
  { lifecycle := .created, tick := 0, entities := [], weapon := initWeapon
    action_queue := [], events := [] }

/-! ## Lifecycle API

Each operation returns its `ax_result`, the instance state after the call,
and the effect on the process-wide last-error buffer (`some msg` = buffer
overwritten with `msg`, `none` = buffer left untouched). -/

/-- `ax_create_params_v1` (log callback fields are outside the model). -/
structure CreateParams where
  version : Nat
  size_bytes : Nat
  abi_major : Nat
  abi_minor : Nat
deriving DecidableEq, Repr

/-- `ax_create`.  `hasParams`/`hasOut` model the nullness of the two pointer
arguments; on success the new instance is returned.  The `std::nothrow`
allocation-failure path is not modelled. -/
def ax_create (hasParams : Bool) (p : CreateParams) (hasOut : Bool) :
    AxResult × Option CoreState × Option String :=
  if !hasParams || !hasOut then
    (.invalidArg, none, some "ax_create: params and out_core must not be NULL")
  else if p.version != 1 then
    (.unsupported, none, some ("ax_create: unknown params version " ++ toString p.version))
  else if p.size_bytes < sizeof_create_params then
    (.invalidArg, none, some ("ax_create: size_bytes " ++ toString p.size_bytes ++
      " < expected " ++ toString sizeof_create_params))
  else if p.abi_major != AX_ABI_MAJOR then
    (.unsupported, none, some ("ax_create: ABI major mismatch (shell=" ++
      toString p.abi_major ++ ", core=" ++ toString AX_ABI_MAJOR ++ ")"))
  else
    (.ok, some initCore, some "")

/-- `ax_content_load_params_v1` (`root_path = none` models a NULL pointer). -/
structure ContentLoadParams where
  version : Nat
  size_bytes : Nat
  root_path : Option String
deriving DecidableEq, Repr

/-- The placeholder entity list spawned by `ax_load_content`
(player id 1 plus targets 100/101/102). -/
def contentEntities : List Entity :=
  [ { id := 1, archetype_id := 0, px := 0, py := 0, pz := 0
      rx := 0, ry := 0, rz := 0, rw := 1, hp := -1
      state_flags := AX_ENT_FLAG_PLAYER },
    { id := 100, archetype_id := 2000, px := 0, py := 0, pz := -10
      rx := 0, ry := 0, rz := 0, rw := 1, hp := 50
      state_flags := AX_ENT_FLAG_TARGET },
    { id := 101, archetype_id := 2000, px := 5, py := 0, pz := -15
      rx := 0, ry := 0, rz := 0, rw := 1, hp := 50
      state_flags := AX_ENT_FLAG_TARGET },
    { id := 102, archetype_id := 2000, px := -5, py := 0, pz := -20
      rx := 0, ry := 0, rz := 0, rw := 1, hp := 50
      state_flags := AX_ENT_FLAG_TARGET } ]

/-- The placeholder weapon state set by `ax_load_content`. -/
def contentWeapon : Weapon :=
  { player_id := 1, weapon_slot := 0, ammo_in_mag := 12, ammo_reserve := 48
    reloading := false, reload_ticks_remaining := 0 }

/-- The full core state after a successful `ax_load_content`. -/
def contentState : CoreState :=
  { lifecycle := .contentLoaded, tick := 0, entities := contentEntities
    weapon := contentWeapon, action_queue := [], events := [] }

/-- `ax_load_content` (content parsing is stubbed in the source: it spawns
the hardcoded placeholder world). -/
def ax_load_content (s : CoreState) (hasParams : Bool) (p : ContentLoadParams) :
    AxResult × CoreState × Option String :=
  if !hasParams then
    (.invalidArg, s, some "ax_load_content: core and params must not be NULL")
  else if s.lifecycle != .created then
    (.badState, s, some "ax_load_content: content already loaded (unload first)")
  else if p.version != 1 then
    (.unsupported, s, some ("ax_load_content: unknown params version " ++ toString p.version))
  else if p.size_bytes < sizeof_content_load_params then
    (.invalidArg, s, some ("ax_load_content: size_bytes " ++ toString p.size_bytes ++
      " < expected " ++ toString sizeof_content_load_params))
  else if p.root_path = none || p.root_path = some "" then
    (.invalidArg, s, some "ax_load_content: root_path must not be NULL or empty")
  else
    (.ok, contentState, some "")

/-- `ax_unload_content` (idempotent; clears everything back to `created`). -/
def ax_unload_content (_s : CoreState) : AxResult × CoreState × Option String :=
  (.ok,
   { lifecycle := .created, tick := 0, entities := [], weapon := initWeapon
     action_queue := [], events := [] },
   some "")

/-! ## Action submission -/

/-- `ax_action_batch_v1` (`actions = none` models a NULL action pointer). -/
structure AxActionBatch where
  version : Nat
  size_bytes : Nat
  count : Nat
  actions : Option (List AxAction)
deriving DecidableEq, Repr

/-- Structural validation of one action (`ax_submit_actions` loop body):
`some msg` is the error message for the first failing check. -/
def validateAction (i : Nat) (a : AxAction) : Option String :=
  if a.type < AX_ACT_MOVE_INTENT || a.type > AX_ACT_CROUCH_TOGGLE then
    some ("ax_submit_actions: action[" ++ toString i ++ "] unknown type " ++ toString a.type)
  else if a.type == AX_ACT_MOVE_INTENT && !(a.move_x.isFinite && a.move_y.isFinite) then
    some ("ax_submit_actions: action[" ++ toString i ++ "] MOVE has non-finite values")
  else if a.type == AX_ACT_LOOK_INTENT && !(a.look_yaw.isFinite && a.look_pitch.isFinite) then
    some ("ax_submit_actions: action[" ++ toString i ++ "] LOOK has non-finite values")
  else
    none

/-- The per-action validate-then-enqueue loop of `ax_submit_actions`:
each valid action is appended to the queue before the next is checked. -/
def submitLoop (s : CoreState) (i : Nat) :
    List AxAction → AxResult × CoreState × Option String
  | [] => (.ok, s, none)
  | a :: rest =>
    match validateAction i a with
    | some msg => (.invalidArg, s, some msg)
    | none => submitLoop { s with action_queue := s.action_queue ++ [a] } (i + 1) rest

/-- `ax_submit_actions` (`batch = none` models a NULL batch pointer).
The C loop reads `batch->actions[0 .. count-1]`; the model iterates over
the first `count` provided actions (a caller passing `count` larger than
the array is undefined behaviour in C and outside the model). -/
def ax_submit_actions (s : CoreState) (batch : Option AxActionBatch) :
    AxResult × CoreState × Option String :=
  match batch with
  | none => (.invalidArg, s, some "ax_submit_actions: core and batch must not be NULL")
  | some b =>
    if s.lifecycle.rank < AxLifecycle.contentLoaded.rank then
      (.badState, s, some "ax_submit_actions: content not loaded")
    else if b.version != 1 then
      (.unsupported, s, some ("ax_submit_actions: unknown batch version " ++ toString b.version))
    else if b.size_bytes < sizeof_action_batch then
      (.invalidArg, s, some ("ax_submit_actions: size_bytes " ++ toString b.size_bytes ++
        " < expected " ++ toString sizeof_action_batch))
    else if b.count = 0 then
      (.ok, s, none)
    else
      match b.actions with
      | none => (.invalidArg, s, some ("ax_submit_actions: count=" ++ toString b.count ++
          " but actions is NULL"))
      | some acts => submitLoop s 0 (acts.take b.count)

/-! ## Tick processor -/

/-- Placeholder walk speed (`WALK_SPEED = 0.1f`). -/
def WALK_SPEED : ℚ := 1 / 10
/-- Placeholder damage per hit (`DAMAGE = 10`). -/
def DAMAGE : Int := 10
/-- Placeholder magazine size (12). -/
def MAGAZINE_SIZE : Int := 12
/-- Placeholder reload duration in ticks (30). -/
def RELOAD_TICKS : Nat := 30

/-- The MOVE_INTENT magnitude clamp (`sqrtf` approximated by `Rat.sqrt`). -/
def clampMag (x y : ℚ) : ℚ × ℚ :=
  let mag := Rat.sqrt (x * x + y * y)
  if 1 < mag then (x / mag, y / mag) else (x, y)

/-- MOVE_INTENT entity loop: update the first entity whose id matches the
actor and which carries the PLAYER flag, then break. -/
def movePlayer (actor : Nat) (dx dz : ℚ) : List Entity → List Entity
  | [] => []
  | e :: rest =>
    if e.id == actor && e.state_flags &&& AX_ENT_FLAG_PLAYER != 0 then
      { e with px := e.px + dx, pz := e.pz + dz, py := 0 } :: rest
    else
      e :: movePlayer actor dx dz rest

/-- LOOK_INTENT entity loop: `ry += yaw` on the first matching player
(the deliberate placeholder quaternion update), then break. -/
def lookPlayer (actor : Nat) (yaw : ℚ) : List Entity → List Entity
  | [] => []
  | e :: rest =>
    if e.id == actor && e.state_flags &&& AX_ENT_FLAG_PLAYER != 0 then
      { e with ry := e.ry + yaw } :: rest
    else
      e :: lookPlayer actor yaw rest

/-- FIRE_ONCE hit loop: damage the first entity flagged TARGET and not
DEAD (one hit per shot), returning the updated list and emitted events. -/
def fireHit (actor : Nat) : List Entity → List Entity × List AxEvent
  | [] => ([], [])
  | e :: rest =>
    if e.state_flags &&& AX_ENT_FLAG_TARGET != 0 &&
       e.state_flags &&& AX_ENT_FLAG_DEAD == 0 then
      let hp' := e.hp - DAMAGE
      let e' :=
        if hp' ≤ 0 then
          { e with hp := hp', state_flags := e.state_flags ||| AX_ENT_FLAG_DEAD }
        else
          { e with hp := hp' }
      let evts :=
        ⟨AX_EVT_DAMAGE_DEALT, actor, e.id, DAMAGE⟩ ::
        (if hp' ≤ 0 then [⟨AX_EVT_TARGET_DESTROY, actor, e.id, 0⟩] else [])
      (e' :: rest, evts)
    else
      let (l, ev) := fireHit actor rest
      (e :: l, ev)

/-- Effect of one due action on the truth state (`ax_step_ticks` per-type
branches).  The action queue itself is managed by the caller. -/
def applyAction (s : CoreState) (a : AxAction) : CoreState :=
  if a.type == AX_ACT_MOVE_INTENT then
    let (mx, my) := clampMag a.move_x.val a.move_y.val
    { s with entities := movePlayer a.actor_id (mx * WALK_SPEED) (my * WALK_SPEED) s.entities }
  else if a.type == AX_ACT_LOOK_INTENT then
    { s with entities := lookPlayer a.actor_id a.look_yaw.val s.entities }
  else if a.type == AX_ACT_FIRE_ONCE then
    if s.weapon.reloading then
      { s with events := s.events ++
          [⟨AX_EVT_FIRE_BLOCKED, a.actor_id, a.weapon_slot, AX_FIRE_BLOCKED_RELOADING⟩] }
    else if s.weapon.ammo_in_mag ≤ 0 then
      { s with events := s.events ++
          [⟨AX_EVT_FIRE_BLOCKED, a.actor_id, a.weapon_slot, AX_FIRE_BLOCKED_EMPTY_MAG⟩] }
    else
      { s with
        weapon := { s.weapon with ammo_in_mag := s.weapon.ammo_in_mag - 1 },
        entities := (fireHit a.actor_id s.entities).1,
        events := s.events ++ (fireHit a.actor_id s.entities).2 }
  else if a.type == AX_ACT_RELOAD then
    if !s.weapon.reloading && s.weapon.ammo_in_mag < MAGAZINE_SIZE &&
       s.weapon.ammo_reserve > 0 then
      { s with
        weapon := { s.weapon with
                    reloading := true,
                    reload_ticks_remaining := RELOAD_TICKS },
        events := s.events ++
          [⟨AX_EVT_RELOAD_STARTED, a.actor_id, a.weapon_slot, 0⟩] }
    else
      s
  else
    s

/-- The queue scan of one tick: actions whose `tick` equals the current
tick are applied in queue order and removed; the rest stay (the C loop
erases in place and continues at the same index). -/
def processActions (s : CoreState) :
    List AxAction → CoreState × List AxAction
  | [] => (s, [])
  | a :: rest =>
    if a.tick == s.tick then
      processActions (applyAction s a) rest
    else
      ((processActions s rest).1, a :: (processActions s rest).2)

/-- Timer advance (tick-ordering step 2): runs after all due actions. -/
def advanceTimer (s : CoreState) : CoreState :=
  if s.weapon.reloading then
    let rem := if s.weapon.reload_ticks_remaining > 0 then
                 s.weapon.reload_ticks_remaining - 1
               else s.weapon.reload_ticks_remaining
    if rem == 0 then
      let needed := MAGAZINE_SIZE - s.weapon.ammo_in_mag
      let to_load := if needed < s.weapon.ammo_reserve then needed else s.weapon.ammo_reserve
      { s with
        weapon := { s.weapon with
                    ammo_in_mag := s.weapon.ammo_in_mag + to_load,
                    ammo_reserve := s.weapon.ammo_reserve - to_load,
                    reloading := false,
                    reload_ticks_remaining := rem },
        events := s.events ++
          [⟨AX_EVT_RELOAD_DONE, s.weapon.player_id, s.weapon.weapon_slot, to_load⟩] }
    else
      { s with weapon := { s.weapon with reload_ticks_remaining := rem } }
  else
    s

/-- One full simulation tick (tick increment wraps like the C `uint64_t`). -/
def stepOne (s : CoreState) : CoreState :=
  let s1 := { s with tick := (s.tick + 1) % 2 ^ 64, events := [] }
  let pr := processActions s1 s1.action_queue
  advanceTimer { pr.1 with action_queue := pr.2 }

/-- `n` repetitions of `stepOne`. -/
def stepN : Nat → CoreState → CoreState
  | 0, s => s
  | n + 1, s => stepN n (stepOne s)

/-- `ax_step_ticks`. -/
def ax_step_ticks (s : CoreState) (n_ticks : Nat) :
    AxResult × CoreState × Option String :=
  if s.lifecycle.rank < AxLifecycle.contentLoaded.rank then
    (.badState, s, some "ax_step_ticks: content not loaded")
  else if n_ticks = 0 then
    (.ok, s, none)
  else
    let s' := stepN n_ticks s
    let s'' := if s'.lifecycle = .contentLoaded then
                 { s' with lifecycle := .running }
               else s'
    (.ok, s'', some "")

/-! ## Snapshot encoder -/

/-- `ax_snapshot_entity_v1`. -/
structure SnapEntity where
  id : Nat
  archetype_id : Nat
  px : ℚ
  py : ℚ
  pz : ℚ
  rx : ℚ
  ry : ℚ
  rz : ℚ
  rw : ℚ
  hp : Int
  state_flags : Nat
deriving DecidableEq, Repr

/-- `ax_snapshot_player_weapon_v1`. -/
structure SnapWeapon where
  player_id : Nat
  weapon_slot : Nat
  ammo_in_mag : Int
  ammo_reserve : Int
  weapon_flags : Nat
  reload_progress : ℚ
deriving DecidableEq, Repr

/-- The decoded content of a snapshot blob: header fields plus the three
record sections, in blob order. -/
structure Snapshot where
  version : Nat
  size_bytes : Nat
  tick : Nat
  entity_count : Nat
  entity_stride_bytes : Nat
  event_count : Nat
  event_stride_bytes : Nat
  flags : Nat
  player_weapon_present : Nat
  entities : List SnapEntity
  weapon : Option SnapWeapon
  events : List AxEvent
deriving DecidableEq, Repr

/-- `sizeof(ax_snapshot_header_v1)`. -/
def sizeof_snap_header : Nat := 40
/-- `sizeof(ax_snapshot_entity_v1)`. -/
def sizeof_snap_entity : Nat := 44
/-- `sizeof(ax_snapshot_player_weapon_v1)`. -/
def sizeof_snap_weapon : Nat := 24
/-- `sizeof(ax_snapshot_event_v1)`. -/
def sizeof_snap_event : Nat := 16

/-- `has_weapon`: 1 when some entity carries the PLAYER flag. -/
def hasWeapon (s : CoreState) : Nat :=
  if s.entities.any (fun e => e.state_flags &&& AX_ENT_FLAG_PLAYER != 0) then 1 else 0

/-- Total snapshot blob size (computed with `uint32_t` arithmetic;
unreachable to overflow for model states, kept exact as `Nat`). -/
def snapshotSize (s : CoreState) : Nat :=
  sizeof_snap_header + s.entities.length * sizeof_snap_entity +
  hasWeapon s * sizeof_snap_weapon + s.events.length * sizeof_snap_event

/-- The snapshot of the current truth store and event log
(`ax_get_snapshot_bytes` blob-building phase, in decoded form). -/
def mkSnapshot (s : CoreState) : Snapshot :=
  { version := 1
    size_bytes := snapshotSize s
    tick := s.tick
    entity_count := s.entities.length
    entity_stride_bytes := sizeof_snap_entity
    event_count := s.events.length
    event_stride_bytes := sizeof_snap_event
    flags := 0
    player_weapon_present := hasWeapon s
    entities := s.entities.map (fun e =>
      { id := e.id, archetype_id := e.archetype_id
        px := e.px, py := e.py, pz := e.pz
        rx := e.rx, ry := e.ry, rz := e.rz, rw := e.rw
        hp := e.hp, state_flags := e.state_flags })
    weapon :=
      if hasWeapon s == 1 then
        some { player_id := s.weapon.player_id
               weapon_slot := s.weapon.weapon_slot
               ammo_in_mag := s.weapon.ammo_in_mag
               ammo_reserve := s.weapon.ammo_reserve
               weapon_flags := if s.weapon.reloading then AX_WPN_FLAG_RELOADING else 0
               reload_progress :=
                 if s.weapon.reloading && s.weapon.reload_ticks_remaining > 0 then
                   1 - (s.weapon.reload_ticks_remaining : ℚ) / (RELOAD_TICKS : ℚ)
                 else 0 }
      else none
    events := s.events }

/-- Byte serialization of one snapshot entity record. -/
def encSnapEntity (e : SnapEntity) : List Nat :=
  le32 e.id ++ le32 e.archetype_id ++
  f32enc e.px ++ f32enc e.py ++ f32enc e.pz ++
  f32enc e.rx ++ f32enc e.ry ++ f32enc e.rz ++ f32enc e.rw ++
  les32 e.hp ++ le32 e.state_flags

/-- Byte serialization of the snapshot weapon record. -/
def encSnapWeapon (w : SnapWeapon) : List Nat :=
  le32 w.player_id ++ le32 w.weapon_slot ++
  les32 w.ammo_in_mag ++ les32 w.ammo_reserve ++
  le32 w.weapon_flags ++ f32enc w.reload_progress

/-- Byte serialization of one event record. -/
def encEvent (ev : AxEvent) : List Nat :=
  le32 ev.type ++ le32 ev.a ++ le32 ev.b ++ les32 ev.value

/-- The snapshot blob bytes (header, entities, optional weapon, events). -/
def snapshotBytes (s : CoreState) : List Nat :=
  let snap := mkSnapshot s
  le16 snap.version ++ le16 0 ++ le32 snap.size_bytes ++ le64 snap.tick ++
  le32 snap.entity_count ++ le32 snap.entity_stride_bytes ++
  le32 snap.event_count ++ le32 snap.event_stride_bytes ++
  le32 snap.flags ++ le32 snap.player_weapon_present ++
  (snap.entities.flatMap encSnapEntity) ++
  (match snap.weapon with
   | some w => encSnapWeapon w
   | none => []) ++
  (snap.events.flatMap encEvent)

/-- `ax_get_snapshot_bytes`.  `hasOutSize` models the nullness of
`out_size_bytes`, `hasOutBuf` that of `out_buf`, `cap` is `out_cap_bytes`.
Besides result/state/error, the call returns the value written through
`out_size_bytes` (if any) and the blob written to `out_buf` (if any). -/
def ax_get_snapshot_bytes (s : CoreState) (hasOutBuf : Bool) (cap : Nat)
    (hasOutSize : Bool) :
    AxResult × CoreState × Option String × Option Nat × Option (List Nat) :=
  if !hasOutSize then
    (.invalidArg, s, some "ax_get_snapshot_bytes: out_size_bytes must not be NULL",
     none, none)
  else if s.lifecycle.rank < AxLifecycle.contentLoaded.rank then
    (.badState, s, some "ax_get_snapshot_bytes: content not loaded", none, none)
  else
    let total := snapshotSize s
    if !hasOutBuf then
      (.ok, s, none, some total, none)
    else if cap < total then
      (.bufferTooSmall, s,
       some ("ax_get_snapshot_bytes: buffer too small (" ++ toString cap ++
         " < " ++ toString total ++ ")"),
       some total, none)
    else
      (.ok, s, some "", some total, some (snapshotBytes s))

/-! ## Save codec (`SAVE_FORMAT.md` v0.3 layout) -/

/-- The additive save checksum: sum of every byte with the `checksum32`
field (offsets 20..23) treated as zero; the C accumulates in `uint32_t`,
so the final value is reduced `% 2^32`. -/
def cksumFrom (i : Nat) : List Nat → Nat
  | [] => 0
  | b :: rest => (if 20 ≤ i ∧ i < 24 then 0 else b % 256) + cksumFrom (i + 1) rest

/-- `compute_save_checksum`. -/
def compute_save_checksum (b : List Nat) : Nat := cksumFrom 0 b % 2 ^ 32

/-- Entities whose TARGET flag is set, in storage order (the records
`ax_save_bytes` writes to the target chunk). -/
def saveTargets (s : CoreState) : List Entity :=
  s.entities.filter (fun e => e.state_flags &&& AX_ENT_FLAG_TARGET != 0)

/-- The first PLAYER-flagged entity, whose transform the world chunk
records (fields stay zero when absent, as with the zero-initialized
`ax_save_a1_world_v1`). -/
def playerOf (s : CoreState) : Option Entity :=
  s.entities.find? (fun e => e.state_flags &&& AX_ENT_FLAG_PLAYER != 0)

/-- Byte serialization of the seven-float transform of an entity. -/
def encTransform (px py pz rx ry rz rw : ℚ) : List Nat :=
  f32enc px ++ f32enc py ++ f32enc pz ++
  f32enc rx ++ f32enc ry ++ f32enc rz ++ f32enc rw

/-- `ax_save_a1_world_v1` bytes for the current state.  Offsets within the
chunk: tick 0, weapon id 8, target def 12, transform 16, ammo 44,
reserve 48, reload ticks 52, target count 56, targets offset 60. -/
def encWorld (s : CoreState) : List Nat :=
  le64 s.tick ++ le32 1000 ++ le32 2000 ++
  (match playerOf s with
   | some p => encTransform p.px p.py p.pz p.rx p.ry p.rz p.rw
   | none => encTransform 0 0 0 0 0 0 0) ++
  les32 s.weapon.ammo_in_mag ++ les32 s.weapon.ammo_reserve ++
  le32 s.weapon.reload_ticks_remaining ++
  le32 (saveTargets s).length ++
  le32 (sizeof_save_header + sizeof_save_world)

/-- `ax_save_target_v1` bytes for one target entity
(`flags` bit 0 = DEAD). -/
def encSaveTarget (e : Entity) : List Nat :=
  le32 e.id ++ encTransform e.px e.py e.pz e.rx e.ry e.rz e.rw ++
  les32 e.hp ++ le32 (if e.state_flags &&& AX_ENT_FLAG_DEAD != 0 then 1 else 0)

/-- `ax_save_header_v1` bytes with the given checksum value. -/
def encSaveHeader (total ck : Nat) : List Nat :=
  le32 AX_SAVE_MAGIC ++ le16 1 ++ le16 0 ++ le32 total ++
  le32 sizeof_save_header ++ le32 sizeof_save_world ++ le32 ck

/-- Total save blob size for the current state. -/
def saveSize (s : CoreState) : Nat :=
  sizeof_save_header + sizeof_save_world +
  (saveTargets s).length * sizeof_save_target

/-- The save blob: header, world chunk, target chunk; the header is
written a second time with the checksum of the blob-with-zero-checksum
(which is what the C's two `memcpy`s of `hdr` amount to). -/
def saveBlob (s : CoreState) : List Nat :=
  let total := saveSize s
  let body := encWorld s ++ (saveTargets s).flatMap encSaveTarget
  let ck := compute_save_checksum (encSaveHeader total 0 ++ body)
  encSaveHeader total ck ++ body

/-- `ax_save_bytes` (same copy-out contract as the snapshot encoder). -/
def ax_save_bytes (s : CoreState) (hasOutBuf : Bool) (cap : Nat)
    (hasOutSize : Bool) :
    AxResult × CoreState × Option String × Option Nat × Option (List Nat) :=
  if !hasOutSize then
    (.invalidArg, s, some "ax_save_bytes: out_size_bytes must not be NULL", none, none)
  else if s.lifecycle.rank < AxLifecycle.contentLoaded.rank then
    (.badState, s, some "ax_save_bytes: content not loaded", none, none)
  else
    let total := saveSize s
    if !hasOutBuf then
      (.ok, s, none, some total, none)
    else if cap < total then
      (.bufferTooSmall, s,
       some ("ax_save_bytes: buffer too small (" ++ toString cap ++
         " < " ++ toString total ++ ")"),
       some total, none)
    else
      (.ok, s, some "", some total, some (saveBlob s))

/-! ## Load codec -/

/-- Decoded `ax_save_header_v1`. -/
structure SaveHeader where
  magic : Nat
  version_major : Nat
  version_minor : Nat
  total_size_bytes : Nat
  world_chunk_offset : Nat
  world_chunk_size_bytes : Nat
  checksum32 : Nat
deriving DecidableEq, Repr

/-- `memcpy(&hdr, src, sizeof(hdr))` plus field access. -/
def parseSaveHeader (b : List Nat) : SaveHeader :=
  { magic := rd32 b
    version_major := rd16 (b.drop 4)
    version_minor := rd16 (b.drop 6)
    total_size_bytes := rd32 (b.drop 8)
    world_chunk_offset := rd32 (b.drop 12)
    world_chunk_size_bytes := rd32 (b.drop 16)
    checksum32 := rd32 (b.drop 20) }

/-- Decoded `ax_save_a1_world_v1`. -/
structure SaveWorld where
  tick : Nat
  weapon_id_slot0 : Nat
  target_def_id : Nat
  px : ℚ
  py : ℚ
  pz : ℚ
  rx : ℚ
  ry : ℚ
  rz : ℚ
  rw : ℚ
  ammo_in_mag : Int
  ammo_reserve : Int
  reload_ticks_remaining : Nat
  target_count : Nat
  targets_offset_bytes : Nat
deriving DecidableEq, Repr

/-- `memcpy(&world, src + world_chunk_offset, sizeof(world))`: `b` is the
buffer suffix starting at the world chunk offset. -/
def parseSaveWorld (b : List Nat) : SaveWorld :=
  { tick := rd64 b
    weapon_id_slot0 := rd32 (b.drop 8)
    target_def_id := rd32 (b.drop 12)
    px := f32dec (b.drop 16)
    py := f32dec (b.drop 20)
    pz := f32dec (b.drop 24)
    rx := f32dec (b.drop 28)
    ry := f32dec (b.drop 32)
    rz := f32dec (b.drop 36)
    rw := f32dec (b.drop 40)
    ammo_in_mag := rds32 (b.drop 44)
    ammo_reserve := rds32 (b.drop 48)
    reload_ticks_remaining := rd32 (b.drop 52)
    target_count := rd32 (b.drop 56)
    targets_offset_bytes := rd32 (b.drop 60) }

/-- Decoded `ax_save_target_v1`. -/
structure SaveTarget where
  entity_id : Nat
  px : ℚ
  py : ℚ
  pz : ℚ
  rx : ℚ
  ry : ℚ
  rz : ℚ
  rw : ℚ
  hp : Int
  flags : Nat
deriving DecidableEq, Repr

/-- One target record, from the buffer suffix at its offset. -/
def parseSaveTarget (b : List Nat) : SaveTarget :=
  { entity_id := rd32 b
    px := f32dec (b.drop 4)
    py := f32dec (b.drop 8)
    pz := f32dec (b.drop 12)
    rx := f32dec (b.drop 16)
    ry := f32dec (b.drop 20)
    rz := f32dec (b.drop 24)
    rw := f32dec (b.drop 28)
    hp := rds32 (b.drop 32)
    flags := rd32 (b.drop 36) }

/-- The contiguous target array (`memcpy` into `saved_targets`): `b` is
the buffer suffix starting at `targets_offset_bytes`. -/
def parseSaveTargets : Nat → List Nat → List SaveTarget
  | 0, _ => []
  | k + 1, b => parseSaveTarget b :: parseSaveTargets k (b.drop sizeof_save_target)

/-- Restore loop body for one saved target: find the entity with the
matching id (validation guarantees one exists), overwrite its transform
and hp, and set/clear its DEAD flag from bit 0 of the saved flags. -/
def restoreTarget (t : SaveTarget) : List Entity → List Entity
  | [] => []
  | e :: rest =>
    if e.id == t.entity_id then
      { e with px := t.px, py := t.py, pz := t.pz
               rx := t.rx, ry := t.ry, rz := t.rz, rw := t.rw
               hp := t.hp
               state_flags :=
                 if t.flags &&& 1 != 0 then e.state_flags ||| AX_ENT_FLAG_DEAD
                 else e.state_flags &&& (0xFFFFFFFF ^^^ AX_ENT_FLAG_DEAD) } :: rest
    else
      e :: restoreTarget t rest

/-- Restore the player transform (first PLAYER-flagged entity) from the
world chunk. -/
def restorePlayer (w : SaveWorld) : List Entity → List Entity
  | [] => []
  | e :: rest =>
    if e.state_flags &&& AX_ENT_FLAG_PLAYER != 0 then
      { e with px := w.px, py := w.py, pz := w.pz
               rx := w.rx, ry := w.ry, rz := w.rz, rw := w.rw } :: rest
    else
      e :: restorePlayer w rest

/-- The apply phase of `ax_load_save_bytes` (runs with no further early
returns once every check has passed): overwrite tick, player transform,
weapon state, per-target hp/transform/dead-flag, and clear the action
queue and event log. -/
def applySaveState (s : CoreState) (world : SaveWorld)
    (saved : List SaveTarget) : CoreState :=
  { s with
    tick := world.tick
    entities := saved.foldl (fun es t => restoreTarget t es)
      (restorePlayer world s.entities)
    weapon := { s.weapon with
                ammo_in_mag := world.ammo_in_mag,
                ammo_reserve := world.ammo_reserve,
                reload_ticks_remaining := world.reload_ticks_remaining,
                reloading := world.reload_ticks_remaining > 0 }
    action_queue := []
    events := [] }

/-- `ax_load_save_bytes` from the world-chunk parse on: target-array
bounds check (with the C's wrapping `uint32_t` arithmetic), saved-id
existence check, then the apply phase. -/
def loadWithWorld (s : CoreState) (b : List Nat) (world : SaveWorld) :
    AxResult × CoreState × Option String :=
  if (world.targets_offset_bytes +
      world.target_count * sizeof_save_target % 2 ^ 32) % 2 ^ 32 >
     b.length then
    (.invalidArg, s, some "ax_load_save_bytes: target array extends past end of buffer")
  else
    match (parseSaveTargets world.target_count
        (b.drop world.targets_offset_bytes)).find?
        (fun t => s.entities.all (fun e => e.id != t.entity_id)) with
    | some t =>
      (.invalidArg, s, some ("ax_load_save_bytes: saved target entity_id " ++
        toString t.entity_id ++ " not found in world"))
    | none =>
      (.ok,
       applySaveState s world (parseSaveTargets world.target_count
         (b.drop world.targets_offset_bytes)),
       some "")

/-- `ax_load_save_bytes` from the header parse on: magic, major version,
total size, checksum, and world-chunk bounds/size checks (the bounds
check uses the C's wrapping `uint32_t` addition). -/
def loadWithHeader (s : CoreState) (b : List Nat) (hdr : SaveHeader) :
    AxResult × CoreState × Option String :=
  if hdr.magic != AX_SAVE_MAGIC then
    (.invalidArg, s, some ("ax_load_save_bytes: bad magic (expected " ++
      toString AX_SAVE_MAGIC ++ ", got " ++ toString hdr.magic ++ ")"))
  else if hdr.version_major != 1 then
    (.unsupported, s, some ("ax_load_save_bytes: unsupported save version " ++
      toString hdr.version_major ++ "." ++ toString hdr.version_minor))
  else if hdr.total_size_bytes != b.length then
    (.invalidArg, s, some ("ax_load_save_bytes: total_size_bytes mismatch (" ++
      toString hdr.total_size_bytes ++ " in header vs " ++
      toString b.length ++ " provided)"))
  else if hdr.checksum32 != compute_save_checksum b then
    (.invalidArg, s, some ("ax_load_save_bytes: checksum mismatch (expected " ++
      toString (compute_save_checksum b) ++ ", got " ++
      toString hdr.checksum32 ++ ")"))
  else if (hdr.world_chunk_offset + hdr.world_chunk_size_bytes) % 2 ^ 32 >
          b.length then
    (.invalidArg, s, some "ax_load_save_bytes: world chunk extends past end of buffer")
  else if hdr.world_chunk_size_bytes < sizeof_save_world then
    (.invalidArg, s, some "ax_load_save_bytes: world chunk too small")
  else
    loadWithWorld s b (parseSaveWorld (b.drop hdr.world_chunk_offset))

/-- `ax_load_save_bytes`.  `buf = none` models a NULL `save_buf`;
`save_size_bytes` is the buffer length. -/
def ax_load_save_bytes (s : CoreState) (buf : Option (List Nat)) :
    AxResult × CoreState × Option String :=
  match buf with
  | none => (.invalidArg, s, some "ax_load_save_bytes: save_buf must not be NULL")
  | some b =>
    if b.length = 0 then
      (.invalidArg, s, some "ax_load_save_bytes: save_size_bytes must be > 0")
    else if s.lifecycle.rank < AxLifecycle.contentLoaded.rank then
      (.badState, s, some "ax_load_save_bytes: content must be loaded before loading a save")
    else if b.length < sizeof_save_header then
      (.invalidArg, s, some ("ax_load_save_bytes: buffer too small for header (" ++
        toString b.length ++ " < " ++ toString sizeof_save_header ++ ")"))
    else
      loadWithHeader s b (parseSaveHeader b)

/-! ## Diagnostics -/

/-- `ax_get_diagnostics` (the returned struct itself carries no claim
content beyond the tick; only result/state/error effects are modelled). -/
def ax_get_diagnostics (s : CoreState) (hasOut : Bool) :
    AxResult × CoreState × Option String :=
  if !hasOut then
    (.invalidArg, s, some "ax_get_diagnostics: out_diag must not be NULL")
  else
    (.ok, s, some "")

/-! ## API scripts

A script is a sequence of public API calls on one instance (obtained from
a successful `ax_create`).  `applyCall` gives each call's result, state
effect and last-error effect; `runScript` folds the state effects. -/

/-- One public API call with its arguments. -/
inductive ApiCall where
  | loadContent (hasParams : Bool) (p : ContentLoadParams)
  | unloadContent
  | submitActions (batch : Option AxActionBatch)
  | stepTicks (n : Nat)
  | getSnapshot (hasOutBuf : Bool) (cap : Nat) (hasOutSize : Bool)
  | saveBytes (hasOutBuf : Bool) (cap : Nat) (hasOutSize : Bool)
  | loadSaveBytes (buf : Option (List Nat))
  | getDiagnostics (hasOut : Bool)
deriving DecidableEq, Repr

/-- Result, next state and last-error effect of one call. -/
def applyCall (s : CoreState) : ApiCall → AxResult × CoreState × Option String
  | .loadContent hasParams p => ax_load_content s hasParams p
  | .unloadContent => ax_unload_content s
  | .submitActions batch => ax_submit_actions s batch
  | .stepTicks n => ax_step_ticks s n
  | .getSnapshot hasOutBuf cap hasOutSize =>
    let r := ax_get_snapshot_bytes s hasOutBuf cap hasOutSize
    (r.1, r.2.1, r.2.2.1)
  | .saveBytes hasOutBuf cap hasOutSize =>
    let r := ax_save_bytes s hasOutBuf cap hasOutSize
    (r.1, r.2.1, r.2.2.1)
  | .loadSaveBytes buf => ax_load_save_bytes s buf
  | .getDiagnostics hasOut => ax_get_diagnostics s hasOut

/-- State after a call (failures leave the state as the call returned it). -/
def stepCall (s : CoreState) (c : ApiCall) : CoreState := (applyCall s c).2.1

/-- State reached by running a script from a given start state. -/
def runFrom (s : CoreState) (script : List ApiCall) : CoreState :=
  script.foldl stepCall s

/-- State reached by running a script on a freshly created instance. -/
def runScript (script : List ApiCall) : CoreState := runFrom initCore script

/-- Last-error buffer content after a call, given its previous content
(`none` = call left the process-wide buffer untouched). -/
def stepErr (p : CoreState × String) (c : ApiCall) : CoreState × String :=
  let r := applyCall p.1 c
  (r.2.1, (r.2.2).getD p.2)

/-- State and last-error buffer after a script on a fresh instance
(a successful `ax_create` leaves the buffer cleared). -/
def runScriptErr (script : List ApiCall) : CoreState × String :=
  script.foldl stepErr (initCore, "")

/-- Does a call invoke `ax_load_save_bytes`? -/
def ApiCall.isLoadSave : ApiCall → Bool
  | .loadSaveBytes _ => true
  | _ => false

/-- Scripts that never call `ax_load_save_bytes`. -/
def loadFree (script : List ApiCall) : Bool :=
  script.all (fun c => !c.isLoadSave)

/-! ## Spec-side predicates and invariants -/

/-- "The first entity in storage order flagged TARGET and not DEAD"
(selection predicate of the FIRE_ONCE hit loop). -/
def isLiveTarget (e : Entity) : Bool :=
  e.state_flags &&& AX_ENT_FLAG_TARGET != 0 && e.state_flags &&& AX_ENT_FLAG_DEAD == 0

/-- Whether one action passes the structural validation of
`ax_submit_actions` (the checks of `validateAction`, which do not depend
on the action's index). -/
def actionValid (a : AxAction) : Bool := (validateAction 0 a).isNone

/-- Replace the actor field (`a`) of an event. -/
def retagActor (actor : Nat) (ev : AxEvent) : AxEvent := { ev with a := actor }

/-- The hit target after a successful FIRE_ONCE: it loses 10 hp and the
DEAD flag is set exactly when the resulting hp is ≤ 0. -/
def hitEntity (e : Entity) : Entity :=
  if e.hp - DAMAGE ≤ 0 then
    { e with hp := e.hp - DAMAGE, state_flags := e.state_flags ||| AX_ENT_FLAG_DEAD }
  else
    { e with hp := e.hp - DAMAGE }

/-- The events a successful FIRE_ONCE hit emits: `DAMAGE_DEALT`, then
`TARGET_DESTROY` exactly when the resulting hp is ≤ 0. -/
def hitEvents (actor : Nat) (e : Entity) : List AxEvent :=
  ⟨AX_EVT_DAMAGE_DEALT, actor, e.id, DAMAGE⟩ ::
  (if e.hp - DAMAGE ≤ 0 then [⟨AX_EVT_TARGET_DESTROY, actor, e.id, 0⟩] else [])

/-- The id/flags/hp observation of an entity (the fields the gameplay
rules and the save format treat as discrete truth). -/
def obsEnt (e : Entity) : Nat × Nat × Int := (e.id, e.state_flags, e.hp)

/-- Shape of one placeholder target's observation: the expected id,
flags TARGET or TARGET|DEAD, hp within the range the damage rules can
produce from the initial 50 (positive while alive). -/
def tgtObs (i : Nat) (o : Nat × Nat × Int) : Prop :=
  o.1 = i ∧ -20 < o.2.2 ∧ o.2.2 ≤ 50 ∧
  ((o.2.1 = AX_ENT_FLAG_TARGET ∧ 0 < o.2.2) ∨
    o.2.1 = (AX_ENT_FLAG_TARGET ||| AX_ENT_FLAG_DEAD))

/-- Shape of the entity list in every content-loaded,
`load_save_bytes`-free reachable state: the placeholder player followed
by targets 100/101/102 (observed through `obsEnt`; positions and
orientations are unconstrained). -/
def entShape (l : List Entity) : Prop :=
  ∃ o1 o2 o3, l.map obsEnt = [(1, AX_ENT_FLAG_PLAYER, -1), o1, o2, o3] ∧
    tgtObs 100 o1 ∧ tgtObs 101 o2 ∧ tgtObs 102 o3


/-- The fields of a decoded snapshot that claim C2 requires to survive the
save/load cycle: the tick, every entity's id/hp/state_flags, and the
weapon's ammo counts and reloading bit. -/
def snapObs (p : Snapshot) :
    Nat × List (Nat × Int × Nat) × Option (Int × Int × Nat) :=
  (p.tick, p.entities.map (fun e => (e.id, e.hp, e.state_flags)),
   p.weapon.map (fun w =>
     (w.ammo_in_mag, w.ammo_reserve, w.weapon_flags &&& AX_WPN_FLAG_RELOADING)))

/-- Weapon invariant, first conjunct: the reloading flag mirrors the
countdown. -/
def weaponRel (w : Weapon) : Prop :=
  w.reloading = true ↔ 0 < w.reload_ticks_remaining

/-- Weapon invariant, numeric bounds (strengthened as needed for the
save round trip: the reserve never exceeds its initial 48 and the
countdown never exceeds 30). -/
def weaponBounds (w : Weapon) : Prop :=
  0 ≤ w.ammo_in_mag ∧ w.ammo_in_mag ≤ 12 ∧
  0 ≤ w.ammo_reserve ∧ w.ammo_reserve ≤ 48 ∧
  w.reload_ticks_remaining ≤ 30

/-- The tick-processor part of the load-free invariant: entity shape
plus both weapon invariants. -/
def coreInv (s : CoreState) : Prop :=
  entShape s.entities ∧ weaponRel s.weapon ∧ weaponBounds s.weapon

/-- Inductive invariant of every `load_save_bytes`-free reachable state. -/
def FullInv (s : CoreState) : Prop :=
  weaponRel s.weapon ∧ s.tick < 2 ^ 64 ∧
  ((s.lifecycle = .created ∧ s.entities = [] ∧ s.weapon = initWeapon) ∨
   (s.lifecycle ≠ .created ∧ entShape s.entities ∧ weaponBounds s.weapon))

/-- The `AX_OK` return paths that leave the process-wide last-error
buffer untouched instead of clearing it: every success path of
`ax_submit_actions`, `ax_step_ticks` with `n_ticks = 0`, and the
size-query (`out_buf == NULL`) paths of `ax_get_snapshot_bytes` and
`ax_save_bytes`. -/
def okNoClear : ApiCall → Prop
  | .submitActions _ => True
  | .stepTicks n => n = 0
  | .getSnapshot hasOutBuf _ _ => hasOutBuf = false
  | .saveBytes hasOutBuf _ _ => hasOutBuf = false
  | _ => False

/-- The last-error discipline one API call obeys: an `AX_OK` return
either clears the process-wide buffer (writes `""`) or — only on the
`exc` paths — leaves it untouched; a failing return overwrites it with
a nonempty message. -/
def errSpec (exc : Prop) (r : AxResult × CoreState × Option String) : Prop :=
  (r.1 = .ok → r.2.2 = some "" ∨ (exc ∧ r.2.2 = none)) ∧
  (r.1 ≠ .ok → ∃ m, r.2.2 = some m ∧ m ≠ "")

/-! ## Concrete inputs for the refutations -/

/-- A well-formed `ax_load_content` call. -/
def goodLoadCall : ApiCall :=
  .loadContent true { version := 1, size_bytes := 16, root_path := some "content" }

/-- A FIRE_ONCE action for a given tick. -/
def fireAt (t : Nat) : AxAction :=
  { tick := t, actor_id := 1, type := AX_ACT_FIRE_ONCE, weapon_slot := 0 }

/-- A submit call with a well-formed batch holding the given actions. -/
def batchCall (as : List AxAction) : ApiCall :=
  .submitActions (some { version := 1, size_bytes := 24, count := as.length
                         actions := some as })

/-- A submit call whose batch carries an unknown version (2): it fails
with Unsupported and sets the last-error buffer. -/
def badVersionSubmit : ApiCall :=
  .submitActions (some { version := 2, size_bytes := 24, count := 0, actions := none })

/-- A submit call with a well-formed empty batch (`count = 0`): it
returns `AX_OK` through the path that does not clear the last error. -/
def emptySubmit : ApiCall :=
  .submitActions (some { version := 1, size_bytes := 24, count := 0, actions := none })

/-- Crafted world chunk carrying `ammo_in_mag = 13` (above the magazine
capacity) and zero targets. -/
def craftedWorld13 : List Nat :=
  le64 0 ++ le32 1000 ++ le32 2000 ++ encTransform 0 0 0 0 0 0 1 ++
  les32 13 ++ les32 48 ++ le32 0 ++ le32 0 ++ le32 88

/-- Crafted 88-byte save blob (header + world chunk, correct checksum)
that passes every `ax_load_save_bytes` validation and restores
`ammo_in_mag = 13`. -/
def craftedBlob13 : List Nat :=
  encSaveHeader 88 (compute_save_checksum (encSaveHeader 88 0 ++ craftedWorld13)) ++
  craftedWorld13

/-- Crafted world chunk referencing one saved target record at offset 88. -/
def craftedWorldPlayerHit : List Nat :=
  le64 0 ++ le32 1000 ++ le32 2000 ++ encTransform 0 0 0 0 0 0 1 ++
  les32 12 ++ les32 48 ++ le32 0 ++ le32 1 ++ le32 88

/-- Crafted target record whose `entity_id` is 1 — the PLAYER's id, which
passes the "saved target exists in the current world" check — with hp 7
and the dead bit set. -/
def craftedPlayerTargetRec : List Nat :=
  le32 1 ++ encTransform 0 0 0 0 0 0 1 ++ les32 7 ++ le32 1

/-- Crafted 128-byte save blob (correct checksum) whose target record
overwrites the PLAYER entity's hp and DEAD flag. -/
def craftedBlobPlayerHit : List Nat :=
  encSaveHeader 128 (compute_save_checksum
    (encSaveHeader 128 0 ++ craftedWorldPlayerHit ++ craftedPlayerTargetRec)) ++
  craftedWorldPlayerHit ++ craftedPlayerTargetRec

/-- A 24-byte buffer (bare header, correct checksum) with
`world_chunk_offset = 0xFFFFFFC0` and `world_chunk_size_bytes = 64`:
the `uint32_t` sum wraps to 0, so the world-chunk bounds check passes
although the chunk lies entirely outside the buffer. -/
def wrapHeaderBuf : List Nat :=
  le32 AX_SAVE_MAGIC ++ le16 1 ++ le16 0 ++ le32 24 ++
  le32 0xFFFFFFC0 ++ le32 64 ++
  le32 (compute_save_checksum
    (le32 AX_SAVE_MAGIC ++ le16 1 ++ le16 0 ++ le32 24 ++
     le32 0xFFFFFFC0 ++ le32 64 ++ le32 0))

/-- The byte range `[world_chunk_offset, world_chunk_offset +
world_chunk_size_bytes)` that `ax_load_save_bytes` copies out of the
buffer once validation has passed, as exact (unwrapped) naturals. -/
def worldReadEnd (b : List Nat) : Nat :=
  (parseSaveHeader b).world_chunk_offset + (parseSaveHeader b).world_chunk_size_bytes

/-! # Theorems -/

/-! ## Structural helper lemmas -/

theorem length_restorePlayer (w : SaveWorld) (l : List Entity) :
    (restorePlayer w l).length = l.length := by
  induction l with
  | nil => rfl
  | cons e rest ih => by_cases h : e.state_flags &&& AX_ENT_FLAG_PLAYER != 0 <;>
      simp [restorePlayer, h, ih]

theorem length_restoreTarget (t : SaveTarget) (l : List Entity) :
    (restoreTarget t l).length = l.length := by
  induction l with
  | nil => rfl
  | cons e rest ih => by_cases h : e.id == t.entity_id <;>
      simp [restoreTarget, h, ih]

theorem length_restoreTargets (saved : List SaveTarget) (l : List Entity) :
    (saved.foldl (fun es t => restoreTarget t es) l).length = l.length := by
  induction saved generalizing l with
  | nil => rfl
  | cons t rest ih => simp [List.foldl_cons, ih, length_restoreTarget]

/-! ## State-effect helper lemmas -/

theorem snapshot_state_eq (s : CoreState) (hasOutBuf : Bool) (cap : Nat)
    (hasOutSize : Bool) :
    (ax_get_snapshot_bytes s hasOutBuf cap hasOutSize).2.1 = s := by
  unfold ax_get_snapshot_bytes
  dsimp only
  split_ifs <;> rfl

theorem save_state_eq (s : CoreState) (hasOutBuf : Bool) (cap : Nat)
    (hasOutSize : Bool) :
    (ax_save_bytes s hasOutBuf cap hasOutSize).2.1 = s := by
  unfold ax_save_bytes
  dsimp only
  split_ifs <;> rfl

theorem diagnostics_state_eq (s : CoreState) (hasOut : Bool) :
    (ax_get_diagnostics s hasOut).2.1 = s := by
  unfold ax_get_diagnostics
  split_ifs <;> rfl

theorem submitLoop_only_queue (acts : List AxAction) (s : CoreState) (i : Nat) :
    ∃ q, (submitLoop s i acts).2.1 = { s with action_queue := q } := by
  induction acts generalizing s i with
  | nil => exact ⟨s.action_queue, rfl⟩
  | cons a rest ih =>
    rw [submitLoop]
    cases hv : validateAction i a with
    | some msg => exact ⟨s.action_queue, rfl⟩
    | none =>
      rcases ih { s with action_queue := s.action_queue ++ [a] } (i + 1) with ⟨q, hq⟩
      exact ⟨q, hq⟩

theorem submit_only_queue (s : CoreState) (batch : Option AxActionBatch) :
    ∃ q, (ax_submit_actions s batch).2.1 = { s with action_queue := q } := by
  cases batch with
  | none => exact ⟨s.action_queue, rfl⟩
  | some b =>
    unfold ax_submit_actions
    dsimp only
    split_ifs <;> try exact ⟨s.action_queue, rfl⟩
    cases hA : b.actions with
    | none => exact ⟨s.action_queue, rfl⟩
    | some acts => exact submitLoop_only_queue (acts.take b.count) s 0

theorem load_state_eq_or_apply (s : CoreState) (buf : Option (List Nat)) :
    (ax_load_save_bytes s buf).2.1 = s ∨
    ∃ world saved, (ax_load_save_bytes s buf).2.1 = applySaveState s world saved := by
  have hW : ∀ b world, (loadWithWorld s b world).2.1 = s ∨
      ∃ w saved, (loadWithWorld s b world).2.1 = applySaveState s w saved := by
    intro b world
    unfold loadWithWorld
    split
    · exact Or.inl rfl
    · split
      · exact Or.inl rfl
      · exact Or.inr ⟨world, _, rfl⟩
  have hH : ∀ b hdr, (loadWithHeader s b hdr).2.1 = s ∨
      ∃ w saved, (loadWithHeader s b hdr).2.1 = applySaveState s w saved := by
    intro b hdr
    unfold loadWithHeader
    split_ifs <;> first | exact hW b _ | exact Or.inl rfl
  cases buf with
  | none => exact Or.inl rfl
  | some b =>
    unfold ax_load_save_bytes
    dsimp only
    split_ifs <;> first | exact hH b _ | exact Or.inl rfl

/-! ## Weapon-relation invariant (all API calls) -/

theorem weaponRel_applyAction (s : CoreState) (a : AxAction)
    (h : weaponRel s.weapon) : weaponRel (applyAction s a).weapon := by
  unfold applyAction
  split_ifs <;> try exact h
  simp [weaponRel, RELOAD_TICKS]

theorem weaponRel_advanceTimer (s : CoreState)
    (h : weaponRel s.weapon) : weaponRel (advanceTimer s).weapon := by
  unfold advanceTimer
  by_cases h1 : s.weapon.reloading = true
  · have hpos : 0 < s.weapon.reload_ticks_remaining := h.1 h1
    by_cases h2 : s.weapon.reload_ticks_remaining - 1 = 0
    · simp [h1, hpos, h2, weaponRel]
    · simp [h1, hpos, h2, weaponRel]
      omega
  · rw [if_neg h1]
    exact h

theorem weaponRel_processActions (q : List AxAction) (s : CoreState)
    (h : weaponRel s.weapon) : weaponRel (processActions s q).1.weapon := by
  induction q generalizing s with
  | nil => exact h
  | cons a rest ih =>
    rw [processActions]
    split_ifs with ht
    · exact ih _ (weaponRel_applyAction s a h)
    · exact ih s h

theorem weaponRel_stepOne (s : CoreState)
    (h : weaponRel s.weapon) : weaponRel (stepOne s).weapon := by
  unfold stepOne
  exact weaponRel_advanceTimer _
    (weaponRel_processActions s.action_queue
      { s with tick := (s.tick + 1) % 2 ^ 64, events := [] } h)

theorem weaponRel_stepN (n : Nat) (s : CoreState)
    (h : weaponRel s.weapon) : weaponRel (stepN n s).weapon := by
  induction n generalizing s with
  | zero => exact h
  | succ k ih => exact ih _ (weaponRel_stepOne s h)

theorem weaponRel_initWeapon : weaponRel initWeapon := by
  simp [weaponRel, initWeapon]

theorem weaponRel_contentWeapon : weaponRel contentWeapon := by
  simp [weaponRel, contentWeapon]

theorem weaponRel_stepCall (s : CoreState) (c : ApiCall)
    (h : weaponRel s.weapon) : weaponRel (stepCall s c).weapon := by
  cases c with
  | loadContent hasParams p =>
    unfold stepCall applyCall ax_load_content
    dsimp only
    split_ifs <;> first | exact h | exact weaponRel_contentWeapon
  | unloadContent => exact weaponRel_initWeapon
  | submitActions batch =>
    rcases submit_only_queue s batch with ⟨q, hq⟩
    unfold stepCall applyCall
    rw [hq]
    exact h
  | stepTicks n =>
    unfold stepCall applyCall ax_step_ticks
    dsimp only
    split_ifs <;> first | exact h | exact weaponRel_stepN n s h
  | getSnapshot hasOutBuf cap hasOutSize =>
    unfold stepCall applyCall
    dsimp only
    rw [snapshot_state_eq]
    exact h
  | saveBytes hasOutBuf cap hasOutSize =>
    unfold stepCall applyCall
    dsimp only
    rw [save_state_eq]
    exact h
  | loadSaveBytes buf =>
    rcases load_state_eq_or_apply s buf with heq | ⟨world, saved, heq⟩
    · unfold stepCall applyCall
      rw [heq]
      exact h
    · unfold stepCall applyCall
      rw [heq]
      simp [applySaveState, weaponRel]
  | getDiagnostics hasOut =>
    unfold stepCall applyCall
    rw [diagnostics_state_eq]
    exact h

theorem weaponRel_runFrom (script : List ApiCall) (s : CoreState)
    (h : weaponRel s.weapon) : weaponRel (runFrom s script).weapon := by
  induction script generalizing s with
  | nil => exact h
  | cons c rest ih => exact ih _ (weaponRel_stepCall s c h)

/-! ## Entity-shape and weapon-bounds invariant (load-free API calls) -/

theorem isLive_flags_player :
    (AX_ENT_FLAG_PLAYER &&& AX_ENT_FLAG_TARGET != 0 &&
     AX_ENT_FLAG_PLAYER &&& AX_ENT_FLAG_DEAD == 0) = false := by decide

theorem isLive_flags_target :
    (AX_ENT_FLAG_TARGET &&& AX_ENT_FLAG_TARGET != 0 &&
     AX_ENT_FLAG_TARGET &&& AX_ENT_FLAG_DEAD == 0) = true := by decide

theorem isLive_flags_dead :
    (6 &&& AX_ENT_FLAG_TARGET != 0 && 6 &&& AX_ENT_FLAG_DEAD == 0) = false := by
  decide

theorem obs_movePlayer (actor : Nat) (dx dz : ℚ) (l : List Entity) :
    (movePlayer actor dx dz l).map obsEnt = l.map obsEnt := by
  induction l with
  | nil => rfl
  | cons e rest ih =>
    rw [movePlayer]
    split_ifs <;> simp [obsEnt, ih]

theorem obs_lookPlayer (actor : Nat) (yaw : ℚ) (l : List Entity) :
    (lookPlayer actor yaw l).map obsEnt = l.map obsEnt := by
  induction l with
  | nil => rfl
  | cons e rest ih =>
    rw [lookPlayer]
    split_ifs <;> simp [obsEnt, ih]

theorem entShape_congr_obs (l l' : List Entity)
    (h : l'.map obsEnt = l.map obsEnt) (hs : entShape l) : entShape l' := by
  unfold entShape
  rw [h]
  exact hs

theorem fireHit_cons_live (actor : Nat) (e : Entity) (rest : List Entity)
    (h : isLiveTarget e = true) :
    fireHit actor (e :: rest) = (hitEntity e :: rest, hitEvents actor e) := by
  have hc := h
  unfold isLiveTarget at hc
  rw [fireHit, if_pos hc]
  by_cases hk : e.hp - DAMAGE ≤ 0 <;> simp [hk, hitEntity, hitEvents]

theorem fireHit_cons_skip (actor : Nat) (e : Entity) (rest : List Entity)
    (h : isLiveTarget e = false) :
    fireHit actor (e :: rest) =
      (e :: (fireHit actor rest).1, (fireHit actor rest).2) := by
  have hc : ¬ (e.state_flags &&& AX_ENT_FLAG_TARGET != 0 &&
      e.state_flags &&& AX_ENT_FLAG_DEAD == 0) = true := by
    unfold isLiveTarget at h
    simp [h]
  rw [fireHit, if_neg hc]

/-- From `tgtObs` of a live (flags = TARGET) entity, the hit entity
still satisfies `tgtObs`. -/
theorem tgtObs_hit (i : Nat) (e : Entity) (h : tgtObs i (obsEnt e))
    (hfl : e.state_flags = AX_ENT_FLAG_TARGET) :
    tgtObs i (obsEnt (hitEntity e)) := by
  obtain ⟨hid, hlo, hhi, hd⟩ := h
  simp only [obsEnt] at hid hlo hhi hd
  have hpos : 0 < e.hp := by
    rcases hd with ⟨-, hp⟩ | hfl6
    · exact hp
    · rw [hfl] at hfl6
      exact absurd hfl6 (by decide)
  unfold hitEntity
  by_cases hk : e.hp - DAMAGE ≤ 0
  · rw [if_pos hk]
    refine ⟨by simpa [obsEnt] using hid, ?_, ?_, Or.inr ?_⟩
    · simp only [obsEnt, DAMAGE] at *
      omega
    · simp only [obsEnt, DAMAGE] at *
      omega
    · simp only [obsEnt]
      rw [hfl]
  · rw [if_neg hk]
    refine ⟨by simpa [obsEnt] using hid, ?_, ?_,
      Or.inl ⟨by simpa [obsEnt] using hfl, ?_⟩⟩ <;>
      (simp only [obsEnt, DAMAGE] at *; omega)

theorem entShape_fireHit (actor : Nat) (l : List Entity) (h : entShape l) :
    entShape (fireHit actor l).1 := by
  obtain ⟨o1, o2, o3, hmap, ht1, ht2, ht3⟩ := h
  rcases l with _ | ⟨e1, _ | ⟨e2, _ | ⟨e3, _ | ⟨e4, _ | ⟨e5, tl⟩⟩⟩⟩⟩ <;>
    simp only [List.map, List.cons.injEq, List.map_eq_nil_iff, List.nil_eq,
      and_true, and_false, false_and, reduceCtorEq] at hmap
  obtain ⟨he1, he2, he3, he4⟩ := hmap
  subst he2
  subst he3
  subst he4
  have hfl1 : e1.state_flags = AX_ENT_FLAG_PLAYER := by
    have := congrArg (Prod.fst ∘ Prod.snd) he1
    simpa [obsEnt] using this
  have hnl1 : isLiveTarget e1 = false := by
    rw [isLiveTarget, hfl1]
    decide
  rw [fireHit_cons_skip actor e1 _ hnl1]
  have hd2n := ht1.2.2.2
  simp only [obsEnt] at hd2n
  rcases hd2n with ⟨hfl2, -⟩ | hfl2
  · have hl2 : isLiveTarget e2 = true := by
      rw [isLiveTarget, hfl2]
      decide
    rw [fireHit_cons_live actor e2 _ hl2]
    exact ⟨obsEnt (hitEntity e2), obsEnt e3, obsEnt e4,
      by simp [he1], tgtObs_hit 100 e2 ht1 hfl2, ht2, ht3⟩
  · have hfl2' : e2.state_flags = 6 := by simpa using hfl2
    have hnl2 : isLiveTarget e2 = false := by
      rw [isLiveTarget, hfl2']
      decide
    rw [fireHit_cons_skip actor e2 _ hnl2]
    have hd3n := ht2.2.2.2
    simp only [obsEnt] at hd3n
    rcases hd3n with ⟨hfl3, -⟩ | hfl3
    · have hl3 : isLiveTarget e3 = true := by
        rw [isLiveTarget, hfl3]
        decide
      rw [fireHit_cons_live actor e3 _ hl3]
      exact ⟨obsEnt e2, obsEnt (hitEntity e3), obsEnt e4,
        by simp [he1], ht1, tgtObs_hit 101 e3 ht2 hfl3, ht3⟩
    · have hfl3' : e3.state_flags = 6 := by simpa using hfl3
      have hnl3 : isLiveTarget e3 = false := by
        rw [isLiveTarget, hfl3']
        decide
      rw [fireHit_cons_skip actor e3 _ hnl3]
      have hd4n := ht3.2.2.2
      simp only [obsEnt] at hd4n
      rcases hd4n with ⟨hfl4, -⟩ | hfl4
      · have hl4 : isLiveTarget e4 = true := by
          rw [isLiveTarget, hfl4]
          decide
        rw [fireHit_cons_live actor e4 _ hl4]
        exact ⟨obsEnt e2, obsEnt e3, obsEnt (hitEntity e4),
          by simp [he1], ht1, ht2, tgtObs_hit 102 e4 ht3 hfl4⟩
      · have hfl4' : e4.state_flags = 6 := by simpa using hfl4
        have hnl4 : isLiveTarget e4 = false := by
          rw [isLiveTarget, hfl4']
          decide
        rw [fireHit_cons_skip actor e4 _ hnl4]
        exact ⟨obsEnt e2, obsEnt e3, obsEnt e4,
          by simp [he1, fireHit], ht1, ht2, ht3⟩

theorem entShape_applyAction (s : CoreState) (a : AxAction)
    (h : entShape s.entities) : entShape (applyAction s a).entities := by
  unfold applyAction
  split_ifs <;>
    first
      | exact h
      | exact entShape_congr_obs _ _ (obs_movePlayer _ _ _ _) h
      | exact entShape_congr_obs _ _ (obs_lookPlayer _ _ _) h
      | exact entShape_fireHit _ _ h

theorem weaponBounds_applyAction (s : CoreState) (a : AxAction)
    (h : weaponBounds s.weapon) : weaponBounds (applyAction s a).weapon := by
  unfold applyAction
  unfold weaponBounds at h ⊢
  split_ifs with h1 h2 h3 h4 h5 h6 h7 <;>
    (simp_all [MAGAZINE_SIZE, RELOAD_TICKS]; try omega)

theorem weaponBounds_advanceTimer (s : CoreState)
    (h : weaponBounds s.weapon) : weaponBounds (advanceTimer s).weapon := by
  unfold advanceTimer
  dsimp only
  unfold weaponBounds at h ⊢
  split_ifs <;> simp_all [MAGAZINE_SIZE] <;> omega

theorem coreInv_applyAction (s : CoreState) (a : AxAction)
    (h : coreInv s) : coreInv (applyAction s a) :=
  ⟨entShape_applyAction s a h.1,
   weaponRel_applyAction s a h.2.1,
   weaponBounds_applyAction s a h.2.2⟩

theorem coreInv_advanceTimer (s : CoreState) (h : coreInv s) :
    coreInv (advanceTimer s) := by
  have hent : (advanceTimer s).entities = s.entities := by
    unfold advanceTimer
    dsimp only
    split_ifs <;> rfl
  exact ⟨hent ▸ h.1, weaponRel_advanceTimer s h.2.1,
    weaponBounds_advanceTimer s h.2.2⟩

theorem coreInv_processActions (q : List AxAction) (s : CoreState)
    (h : coreInv s) : coreInv (processActions s q).1 := by
  induction q generalizing s with
  | nil => exact h
  | cons a rest ih =>
    rw [processActions]
    split_ifs with ht
    · exact ih _ (coreInv_applyAction s a h)
    · exact ih s h

theorem coreInv_stepOne (s : CoreState) (h : coreInv s) :
    coreInv (stepOne s) := by
  unfold stepOne
  apply coreInv_advanceTimer
  have h0 : coreInv { s with tick := (s.tick + 1) % 2 ^ 64, events := [] } := h
  have h1 := coreInv_processActions s.action_queue
    { s with tick := (s.tick + 1) % 2 ^ 64, events := [] } h0
  exact h1

theorem coreInv_stepN (n : Nat) (s : CoreState) (h : coreInv s) :
    coreInv (stepN n s) := by
  induction n generalizing s with
  | zero => exact h
  | succ k ih => exact ih _ (coreInv_stepOne s h)

theorem tick_applyAction (s : CoreState) (a : AxAction) :
    (applyAction s a).tick = s.tick := by
  unfold applyAction
  split_ifs <;> rfl

theorem tick_advanceTimer (s : CoreState) :
    (advanceTimer s).tick = s.tick := by
  unfold advanceTimer
  dsimp only
  split_ifs <;> rfl

theorem tick_processActions (q : List AxAction) (s : CoreState) :
    (processActions s q).1.tick = s.tick := by
  induction q generalizing s with
  | nil => rfl
  | cons a rest ih =>
    rw [processActions]
    split_ifs with ht
    · rw [ih (applyAction s a), tick_applyAction]
    · exact ih s

theorem tick_stepOne (s : CoreState) : (stepOne s).tick < 2 ^ 64 := by
  unfold stepOne
  rw [tick_advanceTimer]
  have := tick_processActions s.action_queue
    { s with tick := (s.tick + 1) % 2 ^ 64, events := [] }
  simp only at this ⊢
  rw [this]
  exact Nat.mod_lt _ (by norm_num)

theorem tick_stepN (n : Nat) (s : CoreState) (h : s.tick < 2 ^ 64) :
    (stepN n s).tick < 2 ^ 64 := by
  induction n generalizing s with
  | zero => exact h
  | succ k ih => exact ih _ (tick_stepOne s)

theorem lifecycle_applyAction (s : CoreState) (a : AxAction) :
    (applyAction s a).lifecycle = s.lifecycle := by
  unfold applyAction
  split_ifs <;> rfl

theorem lifecycle_advanceTimer (s : CoreState) :
    (advanceTimer s).lifecycle = s.lifecycle := by
  unfold advanceTimer
  dsimp only
  split_ifs <;> rfl

theorem lifecycle_processActions (q : List AxAction) (s : CoreState) :
    (processActions s q).1.lifecycle = s.lifecycle := by
  induction q generalizing s with
  | nil => rfl
  | cons a rest ih =>
    rw [processActions]
    split_ifs with ht
    · rw [ih (applyAction s a), lifecycle_applyAction]
    · exact ih s

theorem lifecycle_stepOne (s : CoreState) :
    (stepOne s).lifecycle = s.lifecycle := by
  unfold stepOne
  rw [lifecycle_advanceTimer]
  exact lifecycle_processActions _ _

theorem lifecycle_stepN (n : Nat) (s : CoreState) :
    (stepN n s).lifecycle = s.lifecycle := by
  induction n generalizing s with
  | zero => rfl
  | succ k ih => rw [stepN, ih, lifecycle_stepOne]

theorem FullInv_initCore : FullInv initCore := by
  unfold FullInv initCore initWeapon weaponRel
  norm_num

theorem FullInv_contentState : FullInv contentState := by
  unfold FullInv contentState contentWeapon contentEntities weaponRel
    weaponBounds entShape tgtObs obsEnt
  refine ⟨by norm_num, by norm_num, Or.inr ⟨by simp, ?_, by norm_num⟩⟩
  exact ⟨(100, AX_ENT_FLAG_TARGET, 50), (101, AX_ENT_FLAG_TARGET, 50),
    (102, AX_ENT_FLAG_TARGET, 50),
    by simp, ⟨rfl, by norm_num, by norm_num, Or.inl ⟨rfl, by norm_num⟩⟩,
    ⟨rfl, by norm_num, by norm_num, Or.inl ⟨rfl, by norm_num⟩⟩,
    ⟨rfl, by norm_num, by norm_num, Or.inl ⟨rfl, by norm_num⟩⟩⟩

theorem FullInv_stepCall (s : CoreState) (c : ApiCall)
    (hc : c.isLoadSave = false) (h : FullInv s) : FullInv (stepCall s c) := by
  cases c with
  | loadContent hasParams p =>
    unfold stepCall applyCall ax_load_content
    dsimp only
    split_ifs <;> first | exact h | exact FullInv_contentState
  | unloadContent => exact FullInv_initCore
  | submitActions batch =>
    rcases submit_only_queue s batch with ⟨q, hq⟩
    unfold stepCall applyCall
    rw [hq]
    exact h
  | stepTicks n =>
    unfold stepCall applyCall ax_step_ticks
    dsimp only
    split_ifs with h1 h2 h3 <;> try exact h
    all_goals {
      have hlc : s.lifecycle ≠ .created := by
        cases hl : s.lifecycle <;> simp_all [AxLifecycle.rank]
      have hcore : coreInv s := by
        rcases h.2.2 with ⟨hcr, -, -⟩ | ⟨-, hsh, hb⟩
        · exact absurd hcr hlc
        · exact ⟨hsh, h.1, hb⟩
      have hstep := coreInv_stepN n s hcore
      have htick := tick_stepN n s h.2.1
      refine ⟨hstep.2.1, htick, Or.inr ⟨?_, hstep.1, hstep.2.2⟩⟩
      first
        | (rw [lifecycle_stepN]; exact hlc)
        | simp
    }
  | getSnapshot hasOutBuf cap hasOutSize =>
    unfold stepCall applyCall
    dsimp only
    rw [snapshot_state_eq]
    exact h
  | saveBytes hasOutBuf cap hasOutSize =>
    unfold stepCall applyCall
    dsimp only
    rw [save_state_eq]
    exact h
  | loadSaveBytes buf => simp [ApiCall.isLoadSave] at hc
  | getDiagnostics hasOut =>
    unfold stepCall applyCall
    rw [diagnostics_state_eq]
    exact h

theorem FullInv_runFrom (script : List ApiCall) (s : CoreState)
    (hs : FullInv s) (hlf : loadFree script = true) :
    FullInv (runFrom s script) := by
  induction script generalizing s with
  | nil => exact hs
  | cons c rest ih =>
    rw [loadFree, List.all_cons, Bool.and_eq_true] at hlf
    have hc : c.isLoadSave = false := by
      simpa using hlf.1
    have hrest : loadFree rest = true := hlf.2
    exact ih _ (FullInv_stepCall s c hc hs) hrest

theorem FullInv_runScript (script : List ApiCall)
    (hlf : loadFree script = true) : FullInv (runScript script) :=
  FullInv_runFrom script initCore FullInv_initCore hlf

/-! ## C10 -/

/-- C10: snapshot and save are read-only — for every state and every
combination of `out_buf`/`out_cap`/`out_size` arguments (size query,
too-small buffer, successful copy-out, or argument error),
`ax_get_snapshot_bytes` and `ax_save_bytes` return the core state
exactly as it was, so lifecycle, tick, entity list, weapon, action
queue, and event log are all unchanged. -/
theorem C10_snapshot_save_read_only (s : CoreState) (hasOutBuf : Bool)
    (cap : Nat) (hasOutSize : Bool) :
    (ax_get_snapshot_bytes s hasOutBuf cap hasOutSize).2.1 = s ∧
    (ax_save_bytes s hasOutBuf cap hasOutSize).2.1 = s :=
  ⟨snapshot_state_eq s hasOutBuf cap hasOutSize,
   save_state_eq s hasOutBuf cap hasOutSize⟩

/-! ## C4 -/

/-- C4: load atomicity — every validation failure of
`ax_load_save_bytes` (null/size argument, lifecycle, header size,
magic, version, total size, checksum, world-chunk bounds/size,
target-array bounds, unknown saved target id) returns InvalidArg,
Unsupported or BadState with the state exactly as it was; on the one
success path the action queue and event log are cleared, while the
lifecycle and the entity count are preserved. -/
theorem C4_load_atomicity (s : CoreState) (buf : Option (List Nat)) :
    ((ax_load_save_bytes s buf).1 = .ok ∨
     (ax_load_save_bytes s buf).1 = .invalidArg ∨
     (ax_load_save_bytes s buf).1 = .unsupported ∨
     (ax_load_save_bytes s buf).1 = .badState) ∧
    ((ax_load_save_bytes s buf).1 ≠ .ok → (ax_load_save_bytes s buf).2.1 = s) ∧
    ((ax_load_save_bytes s buf).1 = .ok →
      (ax_load_save_bytes s buf).2.1.action_queue = [] ∧
      (ax_load_save_bytes s buf).2.1.events = [] ∧
      (ax_load_save_bytes s buf).2.1.lifecycle = s.lifecycle ∧
      (ax_load_save_bytes s buf).2.1.entities.length = s.entities.length) := by
  have hW : ∀ b world,
      ((loadWithWorld s b world).1 = .ok ∨
       (loadWithWorld s b world).1 = .invalidArg ∨
       (loadWithWorld s b world).1 = .unsupported ∨
       (loadWithWorld s b world).1 = .badState) ∧
      ((loadWithWorld s b world).1 ≠ .ok → (loadWithWorld s b world).2.1 = s) ∧
      ((loadWithWorld s b world).1 = .ok →
        (loadWithWorld s b world).2.1.action_queue = [] ∧
        (loadWithWorld s b world).2.1.events = [] ∧
        (loadWithWorld s b world).2.1.lifecycle = s.lifecycle ∧
        (loadWithWorld s b world).2.1.entities.length = s.entities.length) := by
    intro b world
    unfold loadWithWorld
    split
    · simp
    · split <;>
        simp [applySaveState, length_restoreTargets, length_restorePlayer]
  have hH : ∀ b hdr,
      ((loadWithHeader s b hdr).1 = .ok ∨
       (loadWithHeader s b hdr).1 = .invalidArg ∨
       (loadWithHeader s b hdr).1 = .unsupported ∨
       (loadWithHeader s b hdr).1 = .badState) ∧
      ((loadWithHeader s b hdr).1 ≠ .ok → (loadWithHeader s b hdr).2.1 = s) ∧
      ((loadWithHeader s b hdr).1 = .ok →
        (loadWithHeader s b hdr).2.1.action_queue = [] ∧
        (loadWithHeader s b hdr).2.1.events = [] ∧
        (loadWithHeader s b hdr).2.1.lifecycle = s.lifecycle ∧
        (loadWithHeader s b hdr).2.1.entities.length = s.entities.length) := by
    intro b hdr
    unfold loadWithHeader
    split_ifs <;> first | exact hW b _ | simp
  cases buf with
  | none => simp [ax_load_save_bytes]
  | some b =>
    unfold ax_load_save_bytes
    by_cases h0 : b.length = 0
    · simp [h0]
    · by_cases h1 : s.lifecycle.rank < AxLifecycle.contentLoaded.rank
      · simp [h0, h1]
      · by_cases h2 : b.length < sizeof_save_header
        · simp [h0, h1, h2]
        · simpa [h0, h1, h2] using hH b (parseSaveHeader b)

/-! ## C1 -/

/-- C1: replay determinism — two instances created with identical
parameters and driven by the same script of API calls are, after every
prefix of the script, in identical states (tick, entities, weapon,
events, queue) and produce byte-identical snapshot and save blobs. -/
theorem C1_replay_determinism (p q : CreateParams) (hpq : p = q)
    (script₁ script₂ : List ApiCall) (hs : script₁ = script₂)
    (c₁ c₂ : CoreState)
    (h₁ : (ax_create true p true).2.1 = some c₁)
    (h₂ : (ax_create true q true).2.1 = some c₂) (k : Nat) :
    runFrom c₁ (script₁.take k) = runFrom c₂ (script₂.take k) ∧
    snapshotBytes (runFrom c₁ (script₁.take k)) =
      snapshotBytes (runFrom c₂ (script₂.take k)) ∧
    saveBlob (runFrom c₁ (script₁.take k)) =
      saveBlob (runFrom c₂ (script₂.take k)) := by
  subst hpq
  subst hs
  have hc : c₁ = c₂ := by
    unfold ax_create at h₁ h₂
    split_ifs at h₁ h₂
    simp_all
  subst hc
  exact ⟨rfl, rfl, rfl⟩

/-! ## C7 -/

theorem validateAction_none_iff (i : Nat) (a : AxAction) :
    validateAction i a = none ↔ actionValid a = true := by
  unfold actionValid validateAction
  split_ifs <;> simp

theorem submitLoop_all_valid (acts : List AxAction) (s : CoreState) (i : Nat)
    (h : ∀ a ∈ acts, actionValid a = true) :
    submitLoop s i acts =
      (.ok, { s with action_queue := s.action_queue ++ acts }, none) := by
  induction acts generalizing s i with
  | nil => simp [submitLoop]
  | cons a rest ih =>
    have hv : validateAction i a = none :=
      (validateAction_none_iff i a).2 (h a (by simp))
    rw [submitLoop, hv]
    rw [ih _ (i + 1) (fun x hx => h x (by simp [hx]))]
    simp

theorem submitLoop_first_invalid (acts : List AxAction) (s : CoreState)
    (i : Nat) (j : Nat) (hj : j < acts.length)
    (hpre : ∀ k, (hk : k < j) → actionValid (acts.get ⟨k, hk.trans hj⟩) = true)
    (hbad : actionValid (acts.get ⟨j, hj⟩) = false) :
    (submitLoop s i acts).1 = .invalidArg ∧
    (submitLoop s i acts).2.1 =
      { s with action_queue := s.action_queue ++ acts.take j } ∧
    ∃ msg, (submitLoop s i acts).2.2 = some msg := by
  induction acts generalizing s i j with
  | nil => exact absurd hj (by simp)
  | cons a rest ih =>
    cases j with
    | zero =>
      have hbad' : actionValid a = false := by simpa using hbad
      have : validateAction i a ≠ none := by
        intro hn
        rw [(validateAction_none_iff i a).1 hn] at hbad'
        simp at hbad'
      rcases Option.ne_none_iff_exists.1 this with ⟨msg, hmsg⟩
      rw [submitLoop, ← hmsg]
      simp
    | succ k =>
      have hv : validateAction i a = none :=
        (validateAction_none_iff i a).2 (hpre 0 (Nat.succ_pos k))
      rw [submitLoop, hv]
      have hjk : k < rest.length := Nat.lt_of_succ_lt_succ hj
      have := ih { s with action_queue := s.action_queue ++ [a] } (i + 1) k hjk
        (fun m hm => hpre (m + 1) (Nat.succ_lt_succ hm)) hbad
      simpa using this

/-- C7: batch submission is non-atomic — on a lifecycle-ready instance
and a well-formed batch header, (a) a fully valid batch appends all its
actions to the queue in order and returns `AX_OK`; (b) if the actions
before index `j` pass validation and the action at `j` is the first
invalid one, the call returns InvalidArg yet the actions before `j`
remain appended to the queue, and no later action is enqueued. -/
theorem C7_submit_non_atomic (s : CoreState) (ver sz : Nat)
    (acts : List AxAction) (hlc : s.lifecycle ≠ .created)
    (hver : ver = 1) (hsz : sizeof_action_batch ≤ sz) :
    ((∀ a ∈ acts, actionValid a = true) →
      ax_submit_actions s (some ⟨ver, sz, acts.length, some acts⟩) =
        (.ok, { s with action_queue := s.action_queue ++ acts }, none)) ∧
    (∀ j, (hj : j < acts.length) →
      (∀ k, (hk : k < j) → actionValid (acts.get ⟨k, hk.trans hj⟩) = true) →
      actionValid (acts.get ⟨j, hj⟩) = false →
      (ax_submit_actions s (some ⟨ver, sz, acts.length, some acts⟩)).1 =
        .invalidArg ∧
      (ax_submit_actions s (some ⟨ver, sz, acts.length, some acts⟩)).2.1 =
        { s with action_queue := s.action_queue ++ acts.take j }) := by
  have hrank : ¬ s.lifecycle.rank < AxLifecycle.contentLoaded.rank := by
    cases h : s.lifecycle <;> simp_all [AxLifecycle.rank]
  subst hver
  constructor
  · intro hall
    cases acts with
    | nil =>
      unfold ax_submit_actions
      simp [hrank, Nat.not_lt.2 hsz]
    | cons a rest =>
      unfold ax_submit_actions
      simp only [hrank, if_false, if_neg (Nat.not_lt.2 hsz)]
      rw [if_neg (by simp), if_neg (by simp [Nat.not_lt.2 hsz])]
      simp only [List.take_length]
      exact submitLoop_all_valid _ s 0 hall
  · intro j hj hpre hbad
    have hne : acts.length ≠ 0 := by
      intro h0
      rw [h0] at hj
      exact Nat.not_lt_zero j hj
    have hloop := submitLoop_first_invalid acts s 0 j hj hpre hbad
    unfold ax_submit_actions
    dsimp only
    rw [if_neg hrank, if_neg (by simp), if_neg (Nat.not_lt.2 hsz), if_neg hne]
    simp only [List.take_length]
    exact ⟨hloop.1, hloop.2.1⟩

/-- An action with an unknown type code (7), rejected by validation. -/
def badTypeAction : AxAction :=
  { tick := 1, actor_id := 1, type := 7, weapon_slot := 0 }

/-- Witness for C7 at concrete inputs: a batch holding one valid
FIRE_ONCE followed by an unknown-type action fails with InvalidArg but
leaves the FIRE_ONCE enqueued. -/
theorem C7_submit_non_atomic_witness :
    (ax_submit_actions contentState
        (some ⟨1, 24, 2, some [fireAt 1, badTypeAction]⟩)).1 = .invalidArg ∧
    (ax_submit_actions contentState
        (some ⟨1, 24, 2, some [fireAt 1, badTypeAction]⟩)).2.1 =
      { contentState with action_queue := contentState.action_queue ++
          [fireAt 1, badTypeAction].take 1 } := by
  have hj : 1 < [fireAt 1, badTypeAction].length := by decide
  have h := (C7_submit_non_atomic contentState 1 24 [fireAt 1, badTypeAction]
    (by decide) rfl (by decide)).2 1 hj
    (fun k hk => by
      have hk0 : k = 0 := Nat.lt_one_iff.1 hk
      subst hk0
      exact (by decide : actionValid (fireAt 1) = true))
    (by exact (by decide : actionValid badTypeAction = false))
  exact ⟨h.1, h.2⟩

/-! ## C3 -/

theorem fireHit_of_find_none (actor : Nat) (l : List Entity)
    (h : l.find? isLiveTarget = none) : fireHit actor l = (l, []) := by
  induction l with
  | nil => rfl
  | cons e rest ih =>
    rw [List.find?_cons] at h
    by_cases he : isLiveTarget e = true
    · rw [he] at h
      exact absurd h (by simp)
    · have he' := he
      unfold isLiveTarget at he'
      rw [fireHit, if_neg he']
      have hr : rest.find? isLiveTarget = none := by
        rcases hb : isLiveTarget e
        · rwa [hb] at h
        · exact absurd hb he
      rw [ih hr]

theorem fireHit_of_find_some (actor : Nat) (l : List Entity) (e : Entity)
    (h : l.find? isLiveTarget = some e) :
    ∃ pre post, l = pre ++ e :: post ∧ (∀ x ∈ pre, isLiveTarget x = false) ∧
      fireHit actor l = (pre ++ hitEntity e :: post, hitEvents actor e) := by
  induction l with
  | nil => exact absurd h (by simp)
  | cons hd rest ih =>
    rw [List.find?_cons] at h
    by_cases hhd : isLiveTarget hd = true
    · rw [hhd] at h
      have he : hd = e := by simpa using h
      subst he
      refine ⟨[], rest, by simp, by simp, ?_⟩
      have hc := hhd
      unfold isLiveTarget at hc
      rw [fireHit, if_pos hc]
      by_cases hk : hd.hp - DAMAGE ≤ 0 <;>
        simp [hk, hitEntity, hitEvents]
    · have hr : rest.find? isLiveTarget = some e := by
        rcases hb : isLiveTarget hd
        · rwa [hb] at h
        · exact absurd hb hhd
      rcases ih hr with ⟨pre, post, hl, hpre, hfh⟩
      have hhd' := hhd
      unfold isLiveTarget at hhd'
      refine ⟨hd :: pre, post, by simp [hl], ?_, ?_⟩
      · intro x hx
        rcases List.mem_cons.1 hx with hx | hx
        · subst hx
          simpa using hhd
        · exact hpre x hx
      · rw [fireHit, if_neg hhd', hfh]
        rfl

/-- C3: FIRE_ONCE semantics — processing a FIRE_ONCE action:
(1) while reloading, exactly one `FIRE_BLOCKED(actor, slot, RELOADING)`
event is emitted and nothing else changes; (2) otherwise with an empty
magazine, exactly one `FIRE_BLOCKED(actor, slot, EMPTY_MAG)` event is
emitted and nothing else changes; (3) otherwise `ammo_in_mag` drops by
exactly 1 and the first entity in storage order flagged TARGET and not
DEAD loses 10 hp, a `DAMAGE_DEALT(actor, target, 10)` event is emitted,
and the DEAD flag is set with a `TARGET_DESTROY(actor, target, 0)`
event exactly when the resulting hp ≤ 0; (4) with no living target the
ammo is still consumed and no further event is emitted. -/
theorem C3_fire_once_semantics (s : CoreState) (actor slot : Nat) :
    (s.weapon.reloading = true →
      applyAction s { tick := s.tick, actor_id := actor, type := AX_ACT_FIRE_ONCE,
                      weapon_slot := slot } =
        { s with events := s.events ++
            [⟨AX_EVT_FIRE_BLOCKED, actor, slot, AX_FIRE_BLOCKED_RELOADING⟩] }) ∧
    (s.weapon.reloading = false → s.weapon.ammo_in_mag ≤ 0 →
      applyAction s { tick := s.tick, actor_id := actor, type := AX_ACT_FIRE_ONCE,
                      weapon_slot := slot } =
        { s with events := s.events ++
            [⟨AX_EVT_FIRE_BLOCKED, actor, slot, AX_FIRE_BLOCKED_EMPTY_MAG⟩] }) ∧
    (s.weapon.reloading = false → 0 < s.weapon.ammo_in_mag →
      ∀ e, s.entities.find? isLiveTarget = some e →
        ∃ pre post, s.entities = pre ++ e :: post ∧
          (∀ x ∈ pre, isLiveTarget x = false) ∧
          applyAction s { tick := s.tick, actor_id := actor, type := AX_ACT_FIRE_ONCE,
                          weapon_slot := slot } =
            { s with
              weapon := { s.weapon with ammo_in_mag := s.weapon.ammo_in_mag - 1 }
              entities := pre ++ hitEntity e :: post
              events := s.events ++ hitEvents actor e }) ∧
    (s.weapon.reloading = false → 0 < s.weapon.ammo_in_mag →
      s.entities.find? isLiveTarget = none →
      applyAction s { tick := s.tick, actor_id := actor, type := AX_ACT_FIRE_ONCE,
                      weapon_slot := slot } =
        { s with
          weapon := { s.weapon with ammo_in_mag := s.weapon.ammo_in_mag - 1 } }) := by
  refine ⟨?_, ?_, ?_, ?_⟩
  · intro hrel
    unfold applyAction
    simp [AX_ACT_FIRE_ONCE, AX_ACT_MOVE_INTENT, AX_ACT_LOOK_INTENT, hrel]
  · intro hrel hmag
    unfold applyAction
    simp [AX_ACT_FIRE_ONCE, AX_ACT_MOVE_INTENT, AX_ACT_LOOK_INTENT, hrel,
      hmag, Int.not_lt.2 hmag]
  · intro hrel hmag e hfind
    rcases fireHit_of_find_some actor s.entities e hfind with
      ⟨pre, post, hl, hpre, hfh⟩
    refine ⟨pre, post, hl, hpre, ?_⟩
    unfold applyAction
    simp [AX_ACT_FIRE_ONCE, AX_ACT_MOVE_INTENT, AX_ACT_LOOK_INTENT, hrel,
      Int.not_le.2 hmag, hfh]
  · intro hrel hmag hnone
    unfold applyAction
    simp [AX_ACT_FIRE_ONCE, AX_ACT_MOVE_INTENT, AX_ACT_LOOK_INTENT, hrel,
      Int.not_le.2 hmag, fireHit_of_find_none actor s.entities hnone]

/-- Witness for C3 at a concrete state: on the freshly content-loaded
world, firing hits target 100. -/
theorem C3_fire_once_semantics_witness :
    ∃ pre post, contentState.entities = pre ++ contentEntities.get ⟨1, by decide⟩ :: post ∧
      (∀ x ∈ pre, isLiveTarget x = false) ∧
      applyAction contentState { tick := contentState.tick, actor_id := 1
                                 type := AX_ACT_FIRE_ONCE, weapon_slot := 0 } =
        { contentState with
          weapon := { contentState.weapon with
                      ammo_in_mag := contentState.weapon.ammo_in_mag - 1 }
          entities := pre ++ hitEntity (contentEntities.get ⟨1, by decide⟩) :: post
          events := contentState.events ++
            hitEvents 1 (contentEntities.get ⟨1, by decide⟩) } :=
  (C3_fire_once_semantics contentState 1 0).2.2.1 rfl (by decide) _ (by decide)

/-! ## C9 -/

theorem fireHit_entities_actor_indep (a1 a2 : Nat) (l : List Entity) :
    (fireHit a1 l).1 = (fireHit a2 l).1 := by
  induction l with
  | nil => rfl
  | cons e rest ih =>
    rw [fireHit, fireHit]
    split_ifs <;> simp [ih]

theorem fireHit_events_retag (a1 a2 : Nat) (l : List Entity) :
    (fireHit a2 l).2 = (fireHit a1 l).2.map (retagActor a2) := by
  induction l with
  | nil => rfl
  | cons e rest ih =>
    rw [fireHit, fireHit]
    by_cases hc : (e.state_flags &&& AX_ENT_FLAG_TARGET != 0 &&
        e.state_flags &&& AX_ENT_FLAG_DEAD == 0) = true
    · by_cases hk : e.hp - DAMAGE ≤ 0 <;> simp [hc, hk, retagActor]
    · simp [hc, ih]

theorem movePlayer_no_match (actor : Nat) (dx dz : ℚ) (l : List Entity)
    (h : ∀ e ∈ l, e.id = actor → e.state_flags &&& AX_ENT_FLAG_PLAYER = 0) :
    movePlayer actor dx dz l = l := by
  induction l with
  | nil => rfl
  | cons e rest ih =>
    rw [movePlayer]
    rw [if_neg, ih (fun x hx => h x (by simp [hx]))]
    intro hc
    simp only [Bool.and_eq_true, beq_iff_eq, bne_iff_ne] at hc
    exact hc.2 (h e (by simp) hc.1)

theorem lookPlayer_no_match (actor : Nat) (yaw : ℚ) (l : List Entity)
    (h : ∀ e ∈ l, e.id = actor → e.state_flags &&& AX_ENT_FLAG_PLAYER = 0) :
    lookPlayer actor yaw l = l := by
  induction l with
  | nil => rfl
  | cons e rest ih =>
    rw [lookPlayer]
    rw [if_neg, ih (fun x hx => h x (by simp [hx]))]
    intro hc
    simp only [Bool.and_eq_true, beq_iff_eq, bne_iff_ne] at hc
    exact hc.2 (h e (by simp) hc.1)

/-- C9: actor-id handling — FIRE_ONCE and RELOAD have exactly the same
effect on the weapon, the entities, the tick and the queue for every
actor id, the actor id being only copied into the emitted events;
MOVE_INTENT and LOOK_INTENT leave the whole state unchanged unless the
actor id equals the id of an entity carrying the PLAYER flag. -/
theorem C9_actor_id_handling (s : CoreState) (a1 a2 slot : Nat) (x y yaw pitch : F32) :
    (∀ ty, ty = AX_ACT_FIRE_ONCE ∨ ty = AX_ACT_RELOAD →
      (applyAction s { tick := s.tick, actor_id := a1, type := ty, weapon_slot := slot }).weapon =
        (applyAction s { tick := s.tick, actor_id := a2, type := ty, weapon_slot := slot }).weapon ∧
      (applyAction s { tick := s.tick, actor_id := a1, type := ty, weapon_slot := slot }).entities =
        (applyAction s { tick := s.tick, actor_id := a2, type := ty, weapon_slot := slot }).entities ∧
      (applyAction s { tick := s.tick, actor_id := a1, type := ty, weapon_slot := slot }).tick =
        (applyAction s { tick := s.tick, actor_id := a2, type := ty, weapon_slot := slot }).tick ∧
      (applyAction s { tick := s.tick, actor_id := a1, type := ty, weapon_slot := slot }).action_queue =
        (applyAction s { tick := s.tick, actor_id := a2, type := ty, weapon_slot := slot }).action_queue ∧
      (applyAction s { tick := s.tick, actor_id := a2, type := ty, weapon_slot := slot }).events =
        s.events ++
          ((applyAction s { tick := s.tick, actor_id := a1, type := ty, weapon_slot := slot }).events.drop
            s.events.length).map (retagActor a2)) ∧
    ((∀ e ∈ s.entities, e.id = a1 → e.state_flags &&& AX_ENT_FLAG_PLAYER = 0) →
      applyAction s { tick := s.tick, actor_id := a1, type := AX_ACT_MOVE_INTENT,
                      move_x := x, move_y := y } = s ∧
      applyAction s { tick := s.tick, actor_id := a1, type := AX_ACT_LOOK_INTENT,
                      look_yaw := yaw, look_pitch := pitch } = s) := by
  constructor
  · intro ty hty
    rcases hty with hty | hty <;> subst hty
    · unfold applyAction
      by_cases hrel : s.weapon.reloading
      · simp [AX_ACT_FIRE_ONCE, AX_ACT_MOVE_INTENT, AX_ACT_LOOK_INTENT,
          hrel, retagActor]
      · by_cases hmag : s.weapon.ammo_in_mag ≤ 0
        · simp [AX_ACT_FIRE_ONCE, AX_ACT_MOVE_INTENT, AX_ACT_LOOK_INTENT,
            hrel, hmag, retagActor]
        · simp [AX_ACT_FIRE_ONCE, AX_ACT_MOVE_INTENT, AX_ACT_LOOK_INTENT,
            hrel, hmag, fireHit_entities_actor_indep a1 a2,
            fireHit_events_retag a1 a2]
    · unfold applyAction
      by_cases hcan : !s.weapon.reloading &&
          s.weapon.ammo_in_mag < MAGAZINE_SIZE && s.weapon.ammo_reserve > 0
      · simp [AX_ACT_RELOAD, AX_ACT_MOVE_INTENT, AX_ACT_LOOK_INTENT,
          AX_ACT_FIRE_ONCE, hcan, retagActor]
      · simp [AX_ACT_RELOAD, AX_ACT_MOVE_INTENT, AX_ACT_LOOK_INTENT,
          AX_ACT_FIRE_ONCE, hcan]
  · intro hno
    constructor
    · unfold applyAction
      simp [AX_ACT_MOVE_INTENT, movePlayer_no_match a1 _ _ s.entities hno]
    · unfold applyAction
      simp [AX_ACT_LOOK_INTENT, AX_ACT_MOVE_INTENT,
        lookPlayer_no_match a1 _ s.entities hno]

/-- Witness for C9 at concrete inputs: firing as actor 7 or actor 9 on
the fresh world gives the same weapon/entities, and a MOVE by actor 55
(no such player) changes nothing. -/
theorem C9_actor_id_handling_witness :
    ((applyAction contentState
        { tick := 0, actor_id := 7, type := AX_ACT_FIRE_ONCE, weapon_slot := 0 }).weapon =
      (applyAction contentState
        { tick := 0, actor_id := 9, type := AX_ACT_FIRE_ONCE, weapon_slot := 0 }).weapon) ∧
    (applyAction contentState
        { tick := 0, actor_id := 55, type := AX_ACT_MOVE_INTENT,
          move_x := .finite 1, move_y := .finite 0 } = contentState) := by
  have h := C9_actor_id_handling contentState 7 9 0 (.finite 1) (.finite 0)
    (.finite 0) (.finite 0)
  refine ⟨(h.1 AX_ACT_FIRE_ONCE (Or.inl rfl)).1, ?_⟩
  have h2 := C9_actor_id_handling contentState 55 9 0 (.finite 1) (.finite 0)
    (.finite 0) (.finite 0)
  exact (h2.2 (by decide)).1

/-! ## C8 -/

theorem append_ne_empty_left (s t : String) (h : 0 < s.length) :
    s ++ t ≠ "" := by
  intro he
  have hlen := congrArg String.length he
  rw [String.length_append, String.length_empty] at hlen
  omega

theorem length_append_pos_left (s t : String) (h : 0 < s.length) :
    0 < (s ++ t).length := by
  rw [String.length_append]
  omega

theorem validateAction_msg_ne (i : Nat) (a : AxAction) (m : String)
    (h : validateAction i a = some m) : m ≠ "" := by
  unfold validateAction at h
  split_ifs at h <;>
    (injection h with h
     rw [← h]
     first
       | exact append_ne_empty_left _ _
           (length_append_pos_left _ _ (length_append_pos_left _ _ (by decide)))
       | exact append_ne_empty_left _ _ (length_append_pos_left _ _ (by decide)))

theorem submitLoop_err (acts : List AxAction) (s : CoreState) (i : Nat) :
    (submitLoop s i acts).2.2 = none ∨
    ∃ m, (submitLoop s i acts).2.2 = some m ∧ m ≠ "" := by
  induction acts generalizing s i with
  | nil => exact Or.inl rfl
  | cons a rest ih =>
    rw [submitLoop]
    cases hv : validateAction i a with
    | some msg => exact Or.inr ⟨msg, rfl, validateAction_msg_ne i a msg hv⟩
    | none => exact ih _ _

theorem submitLoop_ok_err_none (acts : List AxAction) (s : CoreState) (i : Nat)
    (h : (submitLoop s i acts).1 = .ok) : (submitLoop s i acts).2.2 = none := by
  induction acts generalizing s i with
  | nil => rfl
  | cons a rest ih =>
    rw [submitLoop] at h ⊢
    cases hv : validateAction i a with
    | some msg =>
      rw [hv] at h
      exact absurd h (by simp)
    | none =>
      rw [hv] at h
      exact ih _ _ h

theorem submitLoop_res_of_err_none (acts : List AxAction) (s : CoreState) (i : Nat)
    (h : (submitLoop s i acts).2.2 = none) : (submitLoop s i acts).1 = .ok := by
  induction acts generalizing s i with
  | nil => rfl
  | cons a rest ih =>
    rw [submitLoop] at h ⊢
    cases hv : validateAction i a with
    | some msg =>
      rw [hv] at h
      exact absurd h (by simp)
    | none =>
      rw [hv] at h
      exact ih _ _ h

theorem submitLoop_err_of_fail (acts : List AxAction) (s : CoreState) (i : Nat)
    (h : (submitLoop s i acts).1 ≠ .ok) :
    ∃ m, (submitLoop s i acts).2.2 = some m ∧ m ≠ "" := by
  rcases submitLoop_err acts s i with hn | hs
  · exact absurd (submitLoop_res_of_err_none acts s i hn) h
  · exact hs

set_option linter.unreachableTactic false in
set_option linter.unusedTactic false in
/-- C8 (amended): after every API call that returns `AX_OK` the last
error is cleared to empty — except every success path of
`ax_submit_actions`, `ax_step_ticks` with `n_ticks = 0`, and the
size-query (`out_buf = NULL`) paths of `ax_get_snapshot_bytes` and
`ax_save_bytes`, all of which leave the buffer untouched; every call
that returns a non-OK code overwrites the buffer with a nonempty
description of that failure.  This also holds for `ax_create`. -/
theorem C8_last_error_amended (s : CoreState) (c : ApiCall)
    (hasParams : Bool) (p : CreateParams) (hasOut : Bool) :
    errSpec (okNoClear c) (applyCall s c) ∧
    errSpec False
      ((ax_create hasParams p hasOut).1,
       (ax_create hasParams p hasOut).2.1.getD initCore,
       (ax_create hasParams p hasOut).2.2) := by
  constructor
  · cases c with
    | loadContent hasP q =>
      unfold applyCall ax_load_content errSpec
      dsimp only
      split_ifs with h1 h2 h3 h4 h5
      · exact ⟨fun hr => absurd hr (by simp), fun _ => ⟨_, rfl, by decide⟩⟩
      · exact ⟨fun hr => absurd hr (by simp), fun _ => ⟨_, rfl, by decide⟩⟩
      · exact ⟨fun hr => absurd hr (by simp), fun _ => ⟨_, rfl,
          append_ne_empty_left _ _ (by decide)⟩⟩
      · exact ⟨fun hr => absurd hr (by simp), fun _ => ⟨_, rfl,
          append_ne_empty_left _ _
            (length_append_pos_left _ _ (length_append_pos_left _ _ (by decide)))⟩⟩
      · exact ⟨fun hr => absurd hr (by simp), fun _ => ⟨_, rfl, by decide⟩⟩
      · exact ⟨fun _ => Or.inl rfl, fun hr => absurd rfl hr⟩
    | unloadContent =>
      unfold applyCall ax_unload_content errSpec
      dsimp only
      exact ⟨fun _ => Or.inl rfl, fun hr => absurd rfl hr⟩
    | submitActions batch =>
      unfold applyCall errSpec
      dsimp only
      cases batch with
      | none =>
        exact ⟨fun hr => absurd hr (by simp [ax_submit_actions]),
          fun _ => ⟨_, rfl, by decide⟩⟩
      | some b =>
        unfold ax_submit_actions
        dsimp only
        split_ifs with h1 h2 h3 h4
        · exact ⟨fun hr => absurd hr (by simp), fun _ => ⟨_, rfl, by decide⟩⟩
        · exact ⟨fun hr => absurd hr (by simp), fun _ => ⟨_, rfl,
            append_ne_empty_left _ _ (by decide)⟩⟩
        · exact ⟨fun hr => absurd hr (by simp), fun _ => ⟨_, rfl,
            append_ne_empty_left _ _
              (length_append_pos_left _ _ (length_append_pos_left _ _ (by decide)))⟩⟩
        · exact ⟨fun _ => Or.inr ⟨trivial, rfl⟩, fun hr => absurd rfl hr⟩
        · cases hA : b.actions with
          | none =>
            simp only [hA]
            exact ⟨fun hr => absurd hr (by simp), fun _ => ⟨_, rfl,
              append_ne_empty_left _ _ (length_append_pos_left _ _ (by decide))⟩⟩
          | some acts =>
            simp only [hA]
            exact ⟨fun hok => Or.inr ⟨trivial, submitLoop_ok_err_none _ s 0 hok⟩,
              fun hne => submitLoop_err_of_fail _ s 0 hne⟩
    | stepTicks n =>
      unfold applyCall ax_step_ticks errSpec
      dsimp only
      split_ifs with h1 h2 h3
      · exact ⟨fun hr => absurd hr (by simp), fun _ => ⟨_, rfl, by decide⟩⟩
      · exact ⟨fun _ => Or.inr ⟨h2, rfl⟩, fun hr => absurd rfl hr⟩
      · exact ⟨fun _ => Or.inl rfl, fun hr => absurd rfl hr⟩
      · exact ⟨fun _ => Or.inl rfl, fun hr => absurd rfl hr⟩
    | getSnapshot hasOutBuf cap hasOutSize =>
      unfold applyCall ax_get_snapshot_bytes errSpec
      dsimp only
      split_ifs with h1 h2 h3 h4
      · exact ⟨fun hr => absurd hr (by simp), fun _ => ⟨_, rfl, by decide⟩⟩
      · exact ⟨fun hr => absurd hr (by simp), fun _ => ⟨_, rfl, by decide⟩⟩
      · exact ⟨fun _ => Or.inr ⟨by simpa using h3, rfl⟩, fun hr => absurd rfl hr⟩
      · exact ⟨fun hr => absurd hr (by simp), fun _ => ⟨_, rfl,
          append_ne_empty_left _ _ (length_append_pos_left _ _
            (length_append_pos_left _ _ (length_append_pos_left _ _ (by decide))))⟩⟩
      · exact ⟨fun _ => Or.inl rfl, fun hr => absurd rfl hr⟩
    | saveBytes hasOutBuf cap hasOutSize =>
      unfold applyCall ax_save_bytes errSpec
      dsimp only
      split_ifs with h1 h2 h3 h4
      · exact ⟨fun hr => absurd hr (by simp), fun _ => ⟨_, rfl, by decide⟩⟩
      · exact ⟨fun hr => absurd hr (by simp), fun _ => ⟨_, rfl, by decide⟩⟩
      · exact ⟨fun _ => Or.inr ⟨by simpa using h3, rfl⟩, fun hr => absurd rfl hr⟩
      · exact ⟨fun hr => absurd hr (by simp), fun _ => ⟨_, rfl,
          append_ne_empty_left _ _ (length_append_pos_left _ _
            (length_append_pos_left _ _ (length_append_pos_left _ _ (by decide))))⟩⟩
      · exact ⟨fun _ => Or.inl rfl, fun hr => absurd rfl hr⟩
    | loadSaveBytes buf =>
      unfold applyCall errSpec
      dsimp only
      have hW : ∀ b world,
          ((loadWithWorld s b world).1 = .ok →
            (loadWithWorld s b world).2.2 = some "" ∨
              (False ∧ (loadWithWorld s b world).2.2 = none)) ∧
          ((loadWithWorld s b world).1 ≠ .ok →
            ∃ m, (loadWithWorld s b world).2.2 = some m ∧ m ≠ "") := by
        intro b world
        unfold loadWithWorld
        split
        · exact ⟨fun hr => absurd hr (by simp), fun _ => ⟨_, rfl, by decide⟩⟩
        · split
          · exact ⟨fun hr => absurd hr (by simp), fun _ => ⟨_, rfl,
              append_ne_empty_left _ _ (length_append_pos_left _ _ (by decide))⟩⟩
          · exact ⟨fun _ => Or.inl rfl, fun hr => absurd rfl hr⟩
      have hH : ∀ b hdr,
          ((loadWithHeader s b hdr).1 = .ok →
            (loadWithHeader s b hdr).2.2 = some "" ∨
              (False ∧ (loadWithHeader s b hdr).2.2 = none)) ∧
          ((loadWithHeader s b hdr).1 ≠ .ok →
            ∃ m, (loadWithHeader s b hdr).2.2 = some m ∧ m ≠ "") := by
        intro b hdr
        unfold loadWithHeader
        split_ifs <;>
          first
            | exact hW b _
            | exact ⟨fun hr => absurd hr (by simp), fun _ => ⟨_, rfl,
                append_ne_empty_left _ _ (length_append_pos_left _ _
                  (length_append_pos_left _ _ (length_append_pos_left _ _ (by decide))))⟩⟩
            | exact ⟨fun hr => absurd hr (by simp), fun _ => ⟨_, rfl,
                append_ne_empty_left _ _ (length_append_pos_left _ _
                  (length_append_pos_left _ _ (by decide)))⟩⟩
            | exact ⟨fun hr => absurd hr (by simp), fun _ => ⟨_, rfl,
                append_ne_empty_left _ _ (length_append_pos_left _ _ (by decide))⟩⟩
            | exact ⟨fun hr => absurd hr (by simp), fun _ => ⟨_, rfl,
                append_ne_empty_left _ _ (by decide)⟩⟩
            | exact ⟨fun hr => absurd hr (by simp), fun _ => ⟨_, rfl, by decide⟩⟩
      cases buf with
      | none =>
        exact ⟨fun hr => absurd hr (by simp [ax_load_save_bytes]),
          fun _ => ⟨_, rfl, by decide⟩⟩
      | some b =>
        unfold ax_load_save_bytes
        dsimp only
        split_ifs <;>
          first
            | exact hH b _
            | exact ⟨fun hr => absurd hr (by simp), fun _ => ⟨_, rfl,
                append_ne_empty_left _ _ (length_append_pos_left _ _
                  (length_append_pos_left _ _ (length_append_pos_left _ _ (by decide))))⟩⟩
            | exact ⟨fun hr => absurd hr (by simp), fun _ => ⟨_, rfl, by decide⟩⟩
    | getDiagnostics hasOut =>
      unfold applyCall ax_get_diagnostics errSpec
      dsimp only
      split_ifs <;>
        first
          | exact ⟨fun hr => absurd hr (by simp), fun _ => ⟨_, rfl, by decide⟩⟩
          | exact ⟨fun _ => Or.inl rfl, fun hr => absurd rfl hr⟩
  · unfold ax_create errSpec
    split_ifs with h1 h2 h3 h4
    · exact ⟨fun hr => absurd hr (by simp), fun _ => ⟨_, rfl, by decide⟩⟩
    · exact ⟨fun hr => absurd hr (by simp), fun _ => ⟨_, rfl,
        append_ne_empty_left _ _ (by decide)⟩⟩
    · exact ⟨fun hr => absurd hr (by simp), fun _ => ⟨_, rfl,
        append_ne_empty_left _ _
          (length_append_pos_left _ _ (length_append_pos_left _ _ (by decide)))⟩⟩
    · exact ⟨fun hr => absurd hr (by simp), fun _ => ⟨_, rfl,
        append_ne_empty_left _ _ (length_append_pos_left _ _
          (length_append_pos_left _ _ (length_append_pos_left _ _ (by decide))))⟩⟩
    · exact ⟨fun _ => Or.inl rfl, fun hr => absurd rfl hr⟩

/-- C8 counterexample: the claim "after every public API call that
returns AX_OK the last error is empty" is false — after a failing
submit (unknown batch version) sets the buffer, a subsequent
`ax_submit_actions` with a valid empty batch returns `AX_OK` while the
buffer still holds the previous failure's message. -/
theorem C8_last_error_counterexample :
    (applyCall (runScript [goodLoadCall, badVersionSubmit]) emptySubmit).1 = .ok ∧
    (runScriptErr [goodLoadCall, badVersionSubmit, emptySubmit]).2 =
      "ax_submit_actions: unknown batch version 2" ∧
    (runScriptErr [goodLoadCall, badVersionSubmit, emptySubmit]).2 ≠ "" := by
  exact ⟨by decide, by decide, by decide⟩

/-- Witness for C8 (amended) at a concrete input: a successful
`ax_load_content` on a fresh instance clears the last error. -/
theorem C8_last_error_amended_witness :
    (applyCall initCore goodLoadCall).2.2 = some "" ∨
      (okNoClear goodLoadCall ∧ (applyCall initCore goodLoadCall).2.2 = none) :=
  (C8_last_error_amended initCore goodLoadCall true ⟨1, 24, 0, 1⟩ true).1.1
    (by decide)

/-! ## C5 -/

/-- C5: load bounds safety is violated by the code — `wrapHeaderBuf` is
a 24-byte buffer whose header passes every validation of
`ax_load_save_bytes` (the call returns `AX_OK`), yet the world-chunk
read range `[world_chunk_offset, world_chunk_offset +
world_chunk_size_bytes)` ends at 4294967296, far beyond the 24-byte
buffer: the wrapping `uint32_t` addition in the bounds check makes the
out-of-range `memcpy` reachable. -/
theorem C5_load_bounds_unsafe :
    (ax_load_save_bytes contentState (some wrapHeaderBuf)).1 = .ok ∧
    wrapHeaderBuf.length = 24 ∧
    (parseSaveHeader wrapHeaderBuf).world_chunk_offset = 4294967232 ∧
    (parseSaveHeader wrapHeaderBuf).world_chunk_size_bytes = 64 ∧
    wrapHeaderBuf.length < worldReadEnd wrapHeaderBuf := by
  refine ⟨by decide, by decide, by decide, by decide, by decide⟩

/-! ## C6 -/

set_option maxRecDepth 100000 in
/-- C6 counterexample: the weapon invariant is not maintained across
`ax_load_save_bytes` with arbitrary caller-supplied bytes — the crafted
(checksum-correct) blob `craftedBlob13` is accepted and restores
`ammo_in_mag = 13 > 12`. -/
theorem C6_weapon_invariant_counterexample :
    (runScript [goodLoadCall, .loadSaveBytes (some craftedBlob13)]).weapon.ammo_in_mag
      = 13 ∧
    ¬ ((runScript [goodLoadCall,
        .loadSaveBytes (some craftedBlob13)]).weapon.ammo_in_mag ≤ 12) := by
  exact ⟨by decide, by decide⟩

/-- C6 (amended): in every state reachable through the public API,
`reloading = (reload_ticks_remaining > 0)`; and in every state
reachable without `ax_load_save_bytes`, additionally
`0 ≤ ammo_in_mag ≤ 12` and `ammo_reserve ≥ 0`. -/
theorem C6_weapon_invariant_amended (script : List ApiCall) :
    weaponRel (runScript script).weapon ∧
    (loadFree script = true →
      0 ≤ (runScript script).weapon.ammo_in_mag ∧
      (runScript script).weapon.ammo_in_mag ≤ 12 ∧
      0 ≤ (runScript script).weapon.ammo_reserve) := by
  constructor
  · exact weaponRel_runFrom script initCore
      (by simp [weaponRel, initCore, initWeapon])
  · intro hlf
    have h := FullInv_runScript script hlf
    rcases h.2.2 with ⟨-, -, hw⟩ | ⟨-, -, hb⟩
    · rw [hw]
      exact ⟨le_refl 0, by norm_num [initWeapon], le_refl 0⟩
    · exact ⟨hb.1, hb.2.1, hb.2.2.1⟩

/-- Witness for C6 (amended) at a concrete script. -/
theorem C6_weapon_invariant_amended_witness :
    0 ≤ (runScript [goodLoadCall, .stepTicks 3]).weapon.ammo_in_mag ∧
    (runScript [goodLoadCall, .stepTicks 3]).weapon.ammo_in_mag ≤ 12 ∧
    0 ≤ (runScript [goodLoadCall, .stepTicks 3]).weapon.ammo_reserve :=
  (C6_weapon_invariant_amended [goodLoadCall, .stepTicks 3]).2 (by decide)

/-! ## Byte-level encode/parse lemmas (for the save round trip) -/

theorem length_le16 (n : Nat) : (le16 n).length = 2 := rfl
theorem length_le32 (n : Nat) : (le32 n).length = 4 := rfl
theorem length_le64 (n : Nat) : (le64 n).length = 8 := rfl
theorem length_les32 (v : Int) : (les32 v).length = 4 := rfl
theorem length_f32enc (q : ℚ) : (f32enc q).length = 4 := by
  unfold f32enc
  rfl
theorem length_encTransform (a b c d e f g : ℚ) :
    (encTransform a b c d e f g).length = 28 := by
  simp [encTransform, length_f32enc]
theorem length_encSaveHeader (t c : Nat) : (encSaveHeader t c).length = 24 := rfl
theorem length_encWorld (s : CoreState) : (encWorld s).length = 64 := by
  unfold encWorld
  rcases playerOf s with _ | p <;>
    simp [length_le64, length_le32, length_les32, length_encTransform]
theorem length_encSaveTarget (e : Entity) : (encSaveTarget e).length = 40 := by
  simp [encSaveTarget, length_le32, length_les32, length_encTransform]

theorem rd16_cons (a b : Nat) (r : List Nat) :
    rd16 (a :: b :: r) = a % 256 + 2 ^ 8 * (b % 256) := rfl

theorem rd32_cons (a b c d : Nat) (r : List Nat) :
    rd32 (a :: b :: c :: d :: r) =
      a % 256 + 2 ^ 8 * (b % 256) + 2 ^ 16 * (c % 256) + 2 ^ 24 * (d % 256) := rfl

theorem rd64_cons (a b c d e f g h : Nat) (r : List Nat) :
    rd64 (a :: b :: c :: d :: e :: f :: g :: h :: r) =
      a % 256 + 2 ^ 8 * (b % 256) + 2 ^ 16 * (c % 256) + 2 ^ 24 * (d % 256) +
      2 ^ 32 * (e % 256) + 2 ^ 40 * (f % 256) + 2 ^ 48 * (g % 256) +
      2 ^ 56 * (h % 256) := rfl

theorem rd16_le16_append (n : Nat) (r : List Nat) :
    rd16 (le16 n ++ r) = n % 2 ^ 16 := by
  show rd16 (n % 256 :: n / 2 ^ 8 % 256 :: r) = n % 2 ^ 16
  rw [rd16_cons]
  omega

theorem rd32_le32_append (n : Nat) (r : List Nat) :
    rd32 (le32 n ++ r) = n % 2 ^ 32 := by
  show rd32 (n % 256 :: n / 2 ^ 8 % 256 :: n / 2 ^ 16 % 256 :: n / 2 ^ 24 % 256 :: r) =
    n % 2 ^ 32
  rw [rd32_cons]
  omega

theorem rd64_le64_append (n : Nat) (r : List Nat) :
    rd64 (le64 n ++ r) = n % 2 ^ 64 := by
  show rd64 (n % 256 :: n / 2 ^ 8 % 256 :: n / 2 ^ 16 % 256 :: n / 2 ^ 24 % 256 ::
    n / 2 ^ 32 % 256 :: n / 2 ^ 40 % 256 :: n / 2 ^ 48 % 256 :: n / 2 ^ 56 % 256 :: r) =
    n % 2 ^ 64
  rw [rd64_cons]
  omega

theorem rds32_les32_append (v : Int) (r : List Nat)
    (hlo : -2 ^ 31 ≤ v) (hhi : v < 2 ^ 31) :
    rds32 (les32 v ++ r) = v := by
  unfold rds32 les32
  rw [rd32_le32_append]
  dsimp only
  have hnn : 0 ≤ v % 2 ^ 32 := Int.emod_nonneg v (by norm_num)
  have hlt : v % 2 ^ 32 < 2 ^ 32 := Int.emod_lt_of_pos v (by norm_num)
  have h1 : (v % 2 ^ 32).toNat % 2 ^ 32 = (v % 2 ^ 32).toNat := by omega
  rw [h1]
  by_cases hc : (v % 2 ^ 32).toNat < 2 ^ 31
  · rw [if_pos hc]
    omega
  · rw [if_neg hc]
    omega

/-! ## C2: save/load round trip -/


theorem cksumFrom_append (xs ys : List Nat) (i : Nat) :
    cksumFrom i (xs ++ ys) = cksumFrom i xs + cksumFrom (i + xs.length) ys := by
  induction xs generalizing i with
  | nil => simp [cksumFrom]
  | cons a rest ih =>
    simp only [List.cons_append, cksumFrom, List.length_cons, List.append_eq]
    rw [ih]
    have h : i + 1 + rest.length = i + (rest.length + 1) := by omega
    rw [h]
    omega

theorem cksum_encSaveHeader (tot ck : Nat) (body : List Nat) :
    compute_save_checksum (encSaveHeader tot ck ++ body) =
    compute_save_checksum (encSaveHeader tot 0 ++ body) := by
  unfold compute_save_checksum
  rw [cksumFrom_append, cksumFrom_append]
  have h : cksumFrom 0 (encSaveHeader tot ck) = cksumFrom 0 (encSaveHeader tot 0) := by
    simp [encSaveHeader, le32, le16, cksumFrom]
  rw [h, length_encSaveHeader, length_encSaveHeader]

theorem parseSaveHeader_enc (tot ck : Nat) (r : List Nat) :
    parseSaveHeader (encSaveHeader tot ck ++ r) =
      ⟨AX_SAVE_MAGIC, 1, 0, tot % 2 ^ 32, 24, 64, ck % 2 ^ 32⟩ := by
  unfold parseSaveHeader
  simp only [SaveHeader.mk.injEq]
  refine ⟨?_, ?_, ?_, ?_, ?_, ?_, ?_⟩
  · exact (rd32_le32_append AX_SAVE_MAGIC _).trans (by decide)
  · exact (rd16_le16_append 1 _).trans (by decide)
  · exact (rd16_le16_append 0 _).trans (by decide)
  · exact rd32_le32_append tot _
  · exact (rd32_le32_append sizeof_save_header _).trans (by decide)
  · exact (rd32_le32_append sizeof_save_world _).trans (by decide)
  · exact rd32_le32_append ck _

theorem parseSaveWorld_enc (bs : List Nat) (tk : Nat) (p1 p2 p3 p4 p5 p6 p7 : ℚ)
    (mag res : Int) (rem cnt off : Nat) (r : List Nat)
    (hb : bs = le64 tk ++ le32 1000 ++ le32 2000 ++
      encTransform p1 p2 p3 p4 p5 p6 p7 ++ les32 mag ++ les32 res ++
      le32 rem ++ le32 cnt ++ le32 off ++ r)
    (hmlo : -2 ^ 31 ≤ mag) (hmhi : mag < 2 ^ 31)
    (hrlo : -2 ^ 31 ≤ res) (hrhi : res < 2 ^ 31) :
    (parseSaveWorld bs).tick = tk % 2 ^ 64 ∧
    (parseSaveWorld bs).ammo_in_mag = mag ∧
    (parseSaveWorld bs).ammo_reserve = res ∧
    (parseSaveWorld bs).reload_ticks_remaining = rem % 2 ^ 32 ∧
    (parseSaveWorld bs).target_count = cnt % 2 ^ 32 ∧
    (parseSaveWorld bs).targets_offset_bytes = off % 2 ^ 32 := by
  have hd44 : bs.drop 44 =
      les32 mag ++ les32 res ++ le32 rem ++ le32 cnt ++ le32 off ++ r := by
    rw [hb, show le64 tk ++ le32 1000 ++ le32 2000 ++
        encTransform p1 p2 p3 p4 p5 p6 p7 ++ les32 mag ++ les32 res ++
        le32 rem ++ le32 cnt ++ le32 off ++ r =
      (le64 tk ++ le32 1000 ++ le32 2000 ++ encTransform p1 p2 p3 p4 p5 p6 p7) ++
        (les32 mag ++ les32 res ++ le32 rem ++ le32 cnt ++ le32 off ++ r) from by
      simp [List.append_assoc]]
    exact List.drop_left' (by
      simp [List.length_append, length_le64, length_le32, length_encTransform])
  have hd48 : bs.drop 48 = les32 res ++ le32 rem ++ le32 cnt ++ le32 off ++ r := by
    rw [hb, show le64 tk ++ le32 1000 ++ le32 2000 ++
        encTransform p1 p2 p3 p4 p5 p6 p7 ++ les32 mag ++ les32 res ++
        le32 rem ++ le32 cnt ++ le32 off ++ r =
      (le64 tk ++ le32 1000 ++ le32 2000 ++ encTransform p1 p2 p3 p4 p5 p6 p7 ++
        les32 mag) ++ (les32 res ++ le32 rem ++ le32 cnt ++ le32 off ++ r) from by
      simp [List.append_assoc]]
    exact List.drop_left' (by
      simp [List.length_append, length_le64, length_le32, length_encTransform,
        length_les32])
  have hd52 : bs.drop 52 = le32 rem ++ le32 cnt ++ le32 off ++ r := by
    rw [hb, show le64 tk ++ le32 1000 ++ le32 2000 ++
        encTransform p1 p2 p3 p4 p5 p6 p7 ++ les32 mag ++ les32 res ++
        le32 rem ++ le32 cnt ++ le32 off ++ r =
      (le64 tk ++ le32 1000 ++ le32 2000 ++ encTransform p1 p2 p3 p4 p5 p6 p7 ++
        les32 mag ++ les32 res) ++ (le32 rem ++ le32 cnt ++ le32 off ++ r) from by
      simp [List.append_assoc]]
    exact List.drop_left' (by
      simp [List.length_append, length_le64, length_le32, length_encTransform,
        length_les32])
  have hd56 : bs.drop 56 = le32 cnt ++ le32 off ++ r := by
    rw [hb, show le64 tk ++ le32 1000 ++ le32 2000 ++
        encTransform p1 p2 p3 p4 p5 p6 p7 ++ les32 mag ++ les32 res ++
        le32 rem ++ le32 cnt ++ le32 off ++ r =
      (le64 tk ++ le32 1000 ++ le32 2000 ++ encTransform p1 p2 p3 p4 p5 p6 p7 ++
        les32 mag ++ les32 res ++ le32 rem) ++ (le32 cnt ++ le32 off ++ r) from by
      simp [List.append_assoc]]
    exact List.drop_left' (by
      simp [List.length_append, length_le64, length_le32, length_encTransform,
        length_les32])
  have hd60 : bs.drop 60 = le32 off ++ r := by
    rw [hb, show le64 tk ++ le32 1000 ++ le32 2000 ++
        encTransform p1 p2 p3 p4 p5 p6 p7 ++ les32 mag ++ les32 res ++
        le32 rem ++ le32 cnt ++ le32 off ++ r =
      (le64 tk ++ le32 1000 ++ le32 2000 ++ encTransform p1 p2 p3 p4 p5 p6 p7 ++
        les32 mag ++ les32 res ++ le32 rem ++ le32 cnt) ++ (le32 off ++ r) from by
      simp [List.append_assoc]]
    exact List.drop_left' (by
      simp [List.length_append, length_le64, length_le32, length_encTransform,
        length_les32])
  refine ⟨?_, ?_, ?_, ?_, ?_, ?_⟩
  · show rd64 bs = tk % 2 ^ 64
    rw [hb]
    exact rd64_le64_append tk _
  · show rds32 (bs.drop 44) = mag
    rw [hd44]
    exact rds32_les32_append mag _ hmlo hmhi
  · show rds32 (bs.drop 48) = res
    rw [hd48]
    exact rds32_les32_append res _ hrlo hrhi
  · show rd32 (bs.drop 52) = rem % 2 ^ 32
    rw [hd52]
    exact rd32_le32_append rem _
  · show rd32 (bs.drop 56) = cnt % 2 ^ 32
    rw [hd56]
    exact rd32_le32_append cnt _
  · show rd32 (bs.drop 60) = off % 2 ^ 32
    rw [hd60]
    exact rd32_le32_append off _

theorem parseSaveTarget_enc (bs : List Nat) (en : Entity) (r : List Nat)
    (hb : bs = encSaveTarget en ++ r)
    (hid : en.id < 2 ^ 32)
    (hlo : -2 ^ 31 ≤ en.hp) (hhi : en.hp < 2 ^ 31) :
    (parseSaveTarget bs).entity_id = en.id ∧
    (parseSaveTarget bs).hp = en.hp ∧
    (parseSaveTarget bs).flags =
      (if en.state_flags &&& AX_ENT_FLAG_DEAD != 0 then 1 else 0) := by
  have hb' : bs = le32 en.id ++
      encTransform en.px en.py en.pz en.rx en.ry en.rz en.rw ++
      les32 en.hp ++
      (le32 (if en.state_flags &&& AX_ENT_FLAG_DEAD != 0 then 1 else 0) ++ r) := by
    rw [hb]
    simp [encSaveTarget, List.append_assoc]
  have hd32 : bs.drop 32 =
      les32 en.hp ++
      (le32 (if en.state_flags &&& AX_ENT_FLAG_DEAD != 0 then 1 else 0) ++ r) := by
    rw [hb', show le32 en.id ++
        encTransform en.px en.py en.pz en.rx en.ry en.rz en.rw ++
        les32 en.hp ++
        (le32 (if en.state_flags &&& AX_ENT_FLAG_DEAD != 0 then 1 else 0) ++ r) =
      (le32 en.id ++ encTransform en.px en.py en.pz en.rx en.ry en.rz en.rw) ++
        (les32 en.hp ++
          (le32 (if en.state_flags &&& AX_ENT_FLAG_DEAD != 0 then 1 else 0) ++ r))
      from by simp [List.append_assoc]]
    exact List.drop_left' (by
      simp [List.length_append, length_le32, length_encTransform])
  have hd36 : bs.drop 36 =
      le32 (if en.state_flags &&& AX_ENT_FLAG_DEAD != 0 then 1 else 0) ++ r := by
    rw [hb', show le32 en.id ++
        encTransform en.px en.py en.pz en.rx en.ry en.rz en.rw ++
        les32 en.hp ++
        (le32 (if en.state_flags &&& AX_ENT_FLAG_DEAD != 0 then 1 else 0) ++ r) =
      (le32 en.id ++ encTransform en.px en.py en.pz en.rx en.ry en.rz en.rw ++
        les32 en.hp) ++
        (le32 (if en.state_flags &&& AX_ENT_FLAG_DEAD != 0 then 1 else 0) ++ r)
      from by simp [List.append_assoc]]
    exact List.drop_left' (by
      simp [List.length_append, length_le32, length_encTransform, length_les32])
  refine ⟨?_, ?_, ?_⟩
  · show rd32 bs = en.id
    rw [hb']
    exact (rd32_le32_append en.id _).trans (Nat.mod_eq_of_lt hid)
  · show rds32 (bs.drop 32) = en.hp
    rw [hd32]
    exact rds32_les32_append en.hp _ hlo hhi
  · show rd32 (bs.drop 36) =
      (if en.state_flags &&& AX_ENT_FLAG_DEAD != 0 then 1 else 0)
    rw [hd36, rd32_le32_append]
    split <;> rfl

theorem parseSaveTargets_succ (k : Nat) (bs : List Nat) :
    parseSaveTargets (k + 1) bs =
      parseSaveTarget bs :: parseSaveTargets k (bs.drop sizeof_save_target) := rfl

theorem length_flatMap_encSaveTarget (l : List Entity) :
    (l.flatMap encSaveTarget).length = 40 * l.length := by
  induction l with
  | nil => rfl
  | cons e rest ih =>
    simp only [List.flatMap_cons, List.length_append, length_encSaveTarget, ih,
      List.length_cons]
    omega

theorem saveBlob_eq (s : CoreState) :
    saveBlob s = encSaveHeader (saveSize s)
        (compute_save_checksum (encSaveHeader (saveSize s) 0 ++
          (encWorld s ++ (saveTargets s).flatMap encSaveTarget))) ++
      (encWorld s ++ (saveTargets s).flatMap encSaveTarget) := rfl

theorem length_saveBlob (s : CoreState) :
    (saveBlob s).length = saveSize s := by
  rw [saveBlob_eq]
  simp only [List.length_append, length_encSaveHeader, length_encWorld,
    length_flatMap_encSaveTarget]
  unfold saveSize
  unfold sizeof_save_header sizeof_save_world sizeof_save_target
  omega

theorem drop24_encSaveHeader (tot ck : Nat) (r : List Nat) :
    (encSaveHeader tot ck ++ r).drop 24 = r :=
  List.drop_left' (length_encSaveHeader tot ck)

theorem drop88_blobShape (tot ck : Nat) (s : CoreState) (t : List Nat) :
    (encSaveHeader tot ck ++ (encWorld s ++ t)).drop 88 = t := by
  rw [show encSaveHeader tot ck ++ (encWorld s ++ t) =
      (encSaveHeader tot ck ++ encWorld s) ++ t from by simp [List.append_assoc]]
  exact List.drop_left' (by
    simp [List.length_append, length_encSaveHeader, length_encWorld])

theorem drop40_encSaveTarget (en : Entity) (r : List Nat) :
    (encSaveTarget en ++ r).drop sizeof_save_target = r :=
  List.drop_left' (length_encSaveTarget en)

theorem load_save_roundtrip_core
    (lc : AxLifecycle) (t : Nat) (e1 e2 e3 e4 : Entity) (w : Weapon)
    (q : List AxAction) (ev : List AxEvent)
    (htk : t < 2 ^ 64)
    (hob1 : obsEnt e1 = (1, AX_ENT_FLAG_PLAYER, -1))
    (ht2 : tgtObs 100 (obsEnt e2)) (ht3 : tgtObs 101 (obsEnt e3))
    (ht4 : tgtObs 102 (obsEnt e4))
    (hrel : weaponRel w) (hbnd : weaponBounds w) :
    (ax_load_save_bytes contentState
        (some (saveBlob ⟨lc, t, [e1, e2, e3, e4], w, q, ev⟩))).1 = .ok ∧
    snapObs (mkSnapshot (ax_load_save_bytes contentState
        (some (saveBlob ⟨lc, t, [e1, e2, e3, e4], w, q, ev⟩))).2.1) =
      snapObs (mkSnapshot ⟨lc, t, [e1, e2, e3, e4], w, q, ev⟩) := by
  obtain ⟨hid1, hfl1, hhp1⟩ : e1.id = 1 ∧ e1.state_flags = AX_ENT_FLAG_PLAYER ∧
      e1.hp = -1 := by
    have h := hob1
    simp only [obsEnt, Prod.mk.injEq] at h
    exact ⟨h.1, h.2.1, h.2.2⟩
  have ht2' : e2.id = 100 ∧ -20 < e2.hp ∧ e2.hp ≤ 50 ∧
      ((e2.state_flags = AX_ENT_FLAG_TARGET ∧ 0 < e2.hp) ∨
        e2.state_flags = AX_ENT_FLAG_TARGET ||| AX_ENT_FLAG_DEAD) := ht2
  have ht3' : e3.id = 101 ∧ -20 < e3.hp ∧ e3.hp ≤ 50 ∧
      ((e3.state_flags = AX_ENT_FLAG_TARGET ∧ 0 < e3.hp) ∨
        e3.state_flags = AX_ENT_FLAG_TARGET ||| AX_ENT_FLAG_DEAD) := ht3
  have ht4' : e4.id = 102 ∧ -20 < e4.hp ∧ e4.hp ≤ 50 ∧
      ((e4.state_flags = AX_ENT_FLAG_TARGET ∧ 0 < e4.hp) ∨
        e4.state_flags = AX_ENT_FLAG_TARGET ||| AX_ENT_FLAG_DEAD) := ht4
  obtain ⟨hid2, hlo2, hhi2, hfc2⟩ := ht2'
  obtain ⟨hid3, hlo3, hhi3, hfc3⟩ := ht3'
  obtain ⟨hid4, hlo4, hhi4, hfc4⟩ := ht4'
  obtain ⟨hm0, hm1, hr0, hr1, hrm⟩ := hbnd
  have hP1 : (e1.state_flags &&& AX_ENT_FLAG_PLAYER != 0) = true := by
    rw [hfl1]; decide
  have hP1T : (e1.state_flags &&& AX_ENT_FLAG_TARGET != 0) = false := by
    rw [hfl1]; decide
  have hT2 : (e2.state_flags &&& AX_ENT_FLAG_TARGET != 0) = true := by
    rcases hfc2 with ⟨h, -⟩ | h <;> rw [h] <;> decide
  have hT3 : (e3.state_flags &&& AX_ENT_FLAG_TARGET != 0) = true := by
    rcases hfc3 with ⟨h, -⟩ | h <;> rw [h] <;> decide
  have hT4 : (e4.state_flags &&& AX_ENT_FLAG_TARGET != 0) = true := by
    rcases hfc4 with ⟨h, -⟩ | h <;> rw [h] <;> decide
  set s0 : CoreState := ⟨lc, t, [e1, e2, e3, e4], w, q, ev⟩ with hs0
  clear_value s0
  have hTg : saveTargets s0 = [e2, e3, e4] := by
    unfold saveTargets
    rw [hs0]
    simp [List.filter_cons, hP1T, hT2, hT3, hT4]
  have hPl : playerOf s0 = some e1 := by
    unfold playerOf
    rw [hs0]
    simp [List.find?, hP1]
  have hsz : saveSize s0 = 208 := by
    unfold saveSize
    rw [hTg]
    rfl
  have hlen : (saveBlob s0).length = 208 := by rw [length_saveBlob, hsz]
  have hW : encWorld s0 = le64 t ++ le32 1000 ++ le32 2000 ++
      encTransform e1.px e1.py e1.pz e1.rx e1.ry e1.rz e1.rw ++
      les32 w.ammo_in_mag ++ les32 w.ammo_reserve ++
      le32 w.reload_ticks_remaining ++ le32 3 ++ le32 88 := by
    unfold encWorld
    rw [hPl, hTg, hs0]
    rfl
  have hblob : saveBlob s0 = encSaveHeader 208 (compute_save_checksum
      (encSaveHeader 208 0 ++ (encWorld s0 ++ [e2, e3, e4].flatMap encSaveTarget))) ++
      (encWorld s0 ++ [e2, e3, e4].flatMap encSaveTarget) := by
    rw [saveBlob_eq, hsz, hTg]
  set ck : Nat := compute_save_checksum
      (encSaveHeader 208 0 ++ (encWorld s0 ++ [e2, e3, e4].flatMap encSaveTarget))
    with hck
  have hcklt : ck < 2 ^ 32 := by
    rw [hck]
    unfold compute_save_checksum
    exact Nat.mod_lt _ (by norm_num)
  have hcs : compute_save_checksum (saveBlob s0) = ck := by
    rw [hblob, cksum_encSaveHeader]
  have hhdr : parseSaveHeader (saveBlob s0) =
      ⟨AX_SAVE_MAGIC, 1, 0, 208 % 2 ^ 32, 24, 64, ck % 2 ^ 32⟩ := by
    rw [hblob]
    exact parseSaveHeader_enc 208 ck _
  have hbw : (saveBlob s0).drop 24 = le64 t ++ le32 1000 ++ le32 2000 ++
      encTransform e1.px e1.py e1.pz e1.rx e1.ry e1.rz e1.rw ++
      les32 w.ammo_in_mag ++ les32 w.ammo_reserve ++
      le32 w.reload_ticks_remaining ++ le32 3 ++ le32 88 ++
      ([e2, e3, e4].flatMap encSaveTarget) := by
    rw [hblob, drop24_encSaveHeader, hW]
  obtain ⟨hwt, hwm, hwres, hwrem, hwcnt, hwoff⟩ :=
    parseSaveWorld_enc _ t e1.px e1.py e1.pz e1.rx e1.ry e1.rz e1.rw
      w.ammo_in_mag w.ammo_reserve w.reload_ticks_remaining 3 88 _ hbw
      (by omega) (by omega) (by omega) (by omega)
  have hd88 : (saveBlob s0).drop 88 = [e2, e3, e4].flatMap encSaveTarget := by
    rw [hblob]
    exact drop88_blobShape _ _ _ _
  have hfm : [e2, e3, e4].flatMap encSaveTarget =
      encSaveTarget e2 ++ (encSaveTarget e3 ++ (encSaveTarget e4 ++ [])) := by
    simp [List.flatMap_cons, List.flatMap_nil]
  have hpt : parseSaveTargets 3 ((saveBlob s0).drop 88) =
      [parseSaveTarget (encSaveTarget e2 ++
         (encSaveTarget e3 ++ (encSaveTarget e4 ++ []))),
       parseSaveTarget (encSaveTarget e3 ++ (encSaveTarget e4 ++ [])),
       parseSaveTarget (encSaveTarget e4 ++ [])] := by
    rw [hd88, hfm]
    rw [show (3 : Nat) = 2 + 1 from rfl, parseSaveTargets_succ,
      drop40_encSaveTarget,
      show (2 : Nat) = 1 + 1 from rfl, parseSaveTargets_succ,
      drop40_encSaveTarget,
      show (1 : Nat) = 0 + 1 from rfl, parseSaveTargets_succ,
      drop40_encSaveTarget]
    rfl
  obtain ⟨hi2, hh2, hf2b⟩ := parseSaveTarget_enc _ e2
    (encSaveTarget e3 ++ (encSaveTarget e4 ++ [])) rfl
    (by omega) (by omega) (by omega)
  obtain ⟨hi3, hh3, hf3b⟩ := parseSaveTarget_enc _ e3
    (encSaveTarget e4 ++ []) rfl
    (by omega) (by omega) (by omega)
  obtain ⟨hi4, hh4, hf4b⟩ := parseSaveTarget_enc _ e4 [] rfl
    (by omega) (by omega) (by omega)
  set A2 : SaveTarget := parseSaveTarget (encSaveTarget e2 ++
      (encSaveTarget e3 ++ (encSaveTarget e4 ++ []))) with hA2
  set A3 : SaveTarget := parseSaveTarget (encSaveTarget e3 ++
      (encSaveTarget e4 ++ [])) with hA3
  set A4 : SaveTarget := parseSaveTarget (encSaveTarget e4 ++ []) with hA4
  have hwt' : (parseSaveWorld ((saveBlob s0).drop 24)).tick = t := by
    rw [hwt]
    omega
  have hwrem' : (parseSaveWorld ((saveBlob s0).drop 24)).reload_ticks_remaining =
      w.reload_ticks_remaining := by
    rw [hwrem]
    omega
  have hwcnt' : (parseSaveWorld ((saveBlob s0).drop 24)).target_count = 3 := by
    rw [hwcnt]
    rfl
  have hwoff' : (parseSaveWorld ((saveBlob s0).drop 24)).targets_offset_bytes = 88 := by
    rw [hwoff]
    rfl
  have hn2 : (contentState.entities.all fun e => e.id != A2.entity_id) = false := by
    rw [hi2, hid2]
    decide
  have hn3 : (contentState.entities.all fun e => e.id != A3.entity_id) = false := by
    rw [hi3, hid3]
    decide
  have hn4 : (contentState.entities.all fun e => e.id != A4.entity_id) = false := by
    rw [hi4, hid4]
    decide
  have hres : ax_load_save_bytes contentState (some (saveBlob s0)) =
      (.ok, applySaveState contentState (parseSaveWorld ((saveBlob s0).drop 24))
        [A2, A3, A4], some "") := by
    unfold ax_load_save_bytes
    dsimp only
    rw [if_neg (by rw [hlen]; decide : ¬ (saveBlob s0).length = 0),
      if_neg (by decide :
        ¬ contentState.lifecycle.rank < AxLifecycle.contentLoaded.rank),
      if_neg (by rw [hlen]; decide : ¬ (saveBlob s0).length < sizeof_save_header),
      hhdr]
    unfold loadWithHeader loadWithWorld
    dsimp only
    split_ifs with h1 h2 h3 h4 h5 h6 h7
    · simp at h1
    · simp at h2
    · simp [hlen] at h3
    · simp [hcs] at h4
      exact absurd hcklt (by omega)
    · simp [hlen] at h5
    · simp [sizeof_save_world] at h6
    · rw [hwcnt', hwoff'] at h7
      simp [hlen, sizeof_save_target] at h7
    · rw [hwcnt', hwoff', hpt]
      rw [List.find?_cons_of_neg _ (by simp [hn2]),
        List.find?_cons_of_neg _ (by simp [hn3]),
        List.find?_cons_of_neg _ (by simp [hn4]),
        List.find?_nil]
  rw [hres]
  refine ⟨rfl, ?_⟩
  have hcP : (AX_ENT_FLAG_PLAYER &&& AX_ENT_FLAG_PLAYER != 0) = true := by decide
  simp only [applySaveState, hwt', hwm, hwres, hwrem']
  simp only [contentState, contentWeapon, contentEntities]
  simp only [restorePlayer, hcP, if_true]
  simp only [List.foldl_cons, List.foldl_nil]
  simp only [restoreTarget, hi2, hid2, hi3, hid3, hi4, hid4, hh2, hh3, hh4,
    hf2b, hf3b, hf4b]
  simp only [Nat.reduceBEq, reduceIte]
  simp only [Bool.false_eq_true, eq_self_iff_true, ite_true, ite_false]
  rw [hs0]
  simp only [snapObs, mkSnapshot, hasWeapon, List.any_cons, List.any_nil, hcP, hP1,
    Bool.true_or, List.map_cons, List.map_nil, Nat.reduceBEq, reduceIte,
    eq_self_iff_true, ite_true, ite_false]
  simp only [Option.map_some']
  have hbit : (if decide (w.reload_ticks_remaining > 0) = true
        then AX_WPN_FLAG_RELOADING else 0) =
      (if w.reloading = true then AX_WPN_FLAG_RELOADING else 0) := by
    cases hwrl : w.reloading
    · rw [decide_eq_false (fun h => by rw [hrel.mpr h] at hwrl; cases hwrl)]
    · rw [decide_eq_true (hrel.mp hwrl)]
  rw [hbit, hid1, hhp1, hfl1, hid2, hid3, hid4]
  rcases hfc2 with ⟨hf2, -⟩ | hf2 <;> rcases hfc3 with ⟨hf3, -⟩ | hf3 <;>
    rcases hfc4 with ⟨hf4, -⟩ | hf4 <;>
    rw [hf2, hf3, hf4] <;>
    simp [AX_ENT_FLAG_TARGET, AX_ENT_FLAG_DEAD, AX_ENT_FLAG_PLAYER,
      AX_WPN_FLAG_RELOADING] <;>
    decide

set_option maxRecDepth 1000000 in
/-- C2 (refuted as stated, for states reached through `ax_load_save_bytes`):
after loading a crafted save whose target record carries the player's id,
the reachable state holds player hp 7 and the DEAD flag, which
`ax_save_bytes` never persists; saving that state and loading the blob into
a freshly content-loaded instance returns `AX_OK`, yet the two snapshots
disagree on the player entity's hp and state_flags. -/
theorem C2_save_load_roundtrip_counterexample :
    (ax_load_save_bytes contentState (some (saveBlob (runScript
        [goodLoadCall, .loadSaveBytes (some craftedBlobPlayerHit)])))).1 = .ok ∧
    snapObs (mkSnapshot (ax_load_save_bytes contentState (some (saveBlob (runScript
        [goodLoadCall, .loadSaveBytes (some craftedBlobPlayerHit)])))).2.1) ≠
      snapObs (mkSnapshot (runScript
        [goodLoadCall, .loadSaveBytes (some craftedBlobPlayerHit)])) := by
  decide

/-- C2 (amended): for every state reached by a `load_save_bytes`-free
script with content loaded, saving and then loading the blob into a
freshly content-loaded second instance returns `AX_OK` and the snapshot
taken immediately afterwards agrees with the snapshot of the saved state
on the tick, on every entity's id, hp and state_flags, and on the
weapon's ammo_in_mag, ammo_reserve and reloading flag. -/
theorem C2_save_load_roundtrip_amended (script : List ApiCall)
    (hlf : loadFree script = true)
    (hlc : (runScript script).lifecycle ≠ .created) :
    (ax_load_save_bytes contentState (some (saveBlob (runScript script)))).1 = .ok ∧
    snapObs (mkSnapshot (ax_load_save_bytes contentState
        (some (saveBlob (runScript script)))).2.1) =
      snapObs (mkSnapshot (runScript script)) := by
  have hinv := FullInv_runScript script hlf
  rcases hstate : runScript script with ⟨lc, t, ents, w, q, ev⟩
  rw [hstate] at hinv hlc
  obtain ⟨hrel, htk, hcase⟩ := hinv
  rcases hcase with ⟨hl, -, -⟩ | ⟨-, hsh, hbnd⟩
  · exact absurd hl hlc
  · obtain ⟨o1, o2, o3, hmap, ht2o, ht3o, ht4o⟩ := hsh
    rcases ents with _ | ⟨e1, _ | ⟨e2, _ | ⟨e3, _ | ⟨e4, _ | ⟨e5, rest⟩⟩⟩⟩⟩ <;>
      simp only [List.map, List.cons.injEq, List.map_eq_nil_iff, List.nil_eq,
        and_true, and_false, false_and, reduceCtorEq] at hmap
    obtain ⟨h1, h2, h3, h4⟩ := hmap
    exact load_save_roundtrip_core lc t e1 e2 e3 e4 w q ev htk h1
      (h2 ▸ ht2o) (h3 ▸ ht3o) (h4 ▸ ht4o) hrel hbnd

/-- Witness for the amended C2 at a concrete script. -/
theorem C2_save_load_roundtrip_amended_witness :
    (ax_load_save_bytes contentState
        (some (saveBlob (runScript [goodLoadCall])))).1 = .ok ∧
    snapObs (mkSnapshot (ax_load_save_bytes contentState
        (some (saveBlob (runScript [goodLoadCall])))).2.1) =
      snapObs (mkSnapshot (runScript [goodLoadCall])) :=
  C2_save_load_roundtrip_amended [goodLoadCall] (by decide) (by decide)

/-- Witness for C4 at a concrete input (`save_buf = NULL` leaves the
state untouched). -/
theorem C4_load_atomicity_witness :
    (ax_load_save_bytes contentState none).2.1 = contentState :=
  (C4_load_atomicity contentState none).2.1 (by decide)

/-- Witness for C1 at concrete inputs. -/
theorem C1_replay_determinism_witness :
    runFrom initCore ([goodLoadCall].take 1) = runFrom initCore ([goodLoadCall].take 1) ∧
    snapshotBytes (runFrom initCore ([goodLoadCall].take 1)) =
      snapshotBytes (runFrom initCore ([goodLoadCall].take 1)) ∧
    saveBlob (runFrom initCore ([goodLoadCall].take 1)) =
      saveBlob (runFrom initCore ([goodLoadCall].take 1)) :=
  C1_replay_determinism ⟨1, 24, 0, 1⟩ ⟨1, 24, 0, 1⟩ rfl
    [goodLoadCall] [goodLoadCall] rfl initCore initCore (by decide) (by decide) 1

end AxCore
